import Mathlib

/-!
# The seccomp notification broker of `lxd/seccomp.go`

A shallow embedding of the C helpers of the cgo preamble (`device_allowed`,
`seccomp_notify_mknod_set_response`, the syscall table) and of the Go side
(`IsValidSeccompIovec`, `SendSeccompIovec`, `taskUidGid`, `doMknod`, `Handler`,
`InvalidHandler`), and of the policy generator (`ContainerNeedsSeccomp`,
`getSeccompProfileContent`, `SeccompCreateProfile`), whose host functions
(`shared.IsTrue`, `osarch.ArchitectureName`, the file operations) are the fields of
a `Host`.

Everything the code obtains from outside (the peer memory behind `memFd`, the
container registry, `/proc`, the `forkmknod` helper, the socket) is an explicit
`World` of oracles; every call the code makes to the outside is recorded, in
order, as an `Event`, so that "the helper is not invoked" is a statement about
the returned list of events.

The C functions are those of the `#ifdef SECCOMP_RET_USER_NOTIF` branch: the
preamble defines that macro itself when the headers do not, so the stubs of the
`#else` branch are never compiled.

Integer conventions: C `int`, `pid_t` and Go `int32` are 32-bit two's
complement, Go `int` is 64-bit two's complement (the 64-bit targets, of which
x86_64 is the first row of the syscall table), `mode_t` and `__u32` are
unsigned 32-bit, `dev_t` and `__u64` unsigned 64-bit.
-/

namespace Seccomp

/-! ## Machine integers -/

/-- The value of `x` after conversion to a signed two's-complement integer of `w` bits. -/
def wrapSigned (w : Nat) (x : Int) : Int :=
  (x + 2 ^ (w - 1)) % 2 ^ w - 2 ^ (w - 1)

/-- Conversion to C `int` (`C.int(x)`, `(int)x`) and to `pid_t`. -/
def toCInt (x : Int) : Int := wrapSigned 32 x

/-- Conversion to Go `int32`. -/
def toInt32 (x : Int) : Int := wrapSigned 32 x

/-- A result of Go `int` arithmetic (64 bits). -/
def toGoInt (x : Int) : Int := wrapSigned 64 x

/-- Conversion of a `__u64` to `mode_t` (`unsigned int`). -/
def toModeT (x : Nat) : Nat := x % 2 ^ 32

/-! ## Constants of the C headers (asm-generic values) -/

def EPERM : Int := 1
def EINVAL : Int := 22
def ENOANO : Int := 55
def ENOMEDIUM : Int := 123

/-- The `S_IFCHR` bit of `sys/stat.h`, octal 0020000. -/
def S_IFCHR : Nat := 0x2000

/-- The `AT_FDCWD` sentinel of `fcntl.h`. -/
def AT_FDCWD : Int := -100

/-- The constant `unix.PathMax`. -/
def PathMax : Nat := 4096

/-- The glibc `makedev(major, minor)` of `sys/sysmacros.h`. -/
def makedev (major minor : Nat) : Nat :=
  (((major &&& 0x00000fff) <<< 8) ||| ((major &&& 0xfffff000) <<< 32)) |||
    ((minor &&& 0x000000ff) ||| ((minor &&& 0xffffff00) <<< 12))

/-- The function `unix.Major` of golang.org/x/sys/unix. -/
def unixMajor (dev : Nat) : Nat :=
  ((dev &&& 0x00000000000fff00) >>> 8) ||| (((dev &&& 0xfffff00000000000) >>> 32) % 2 ^ 32)

/-- The function `unix.Minor` of golang.org/x/sys/unix. -/
def unixMinor (dev : Nat) : Nat :=
  (dev &&& 0x00000000000000ff) ||| (((dev &&& 0x00000ffffff00000) >>> 12) % 2 ^ 32)

/-! ## Wire structures -/

structure seccomp_notif_sizes where
  seccomp_notif : Nat
  seccomp_notif_resp : Nat
  seccomp_data : Nat
deriving DecidableEq

structure seccomp_data where
  nr : Int
  arch : Nat
  instruction_pointer : Nat
  args : Fin 6 → Nat

structure seccomp_notif where
  id : Nat
  pid : Nat
  flags : Nat
  data : seccomp_data

structure seccomp_notif_resp where
  id : Nat
  val : Int
  error : Int
  flags : Nat
deriving DecidableEq

structure seccomp_notify_proxy_msg where
  __reserved : Nat
  monitor_pid : Int
  init_pid : Int
  sizes : seccomp_notif_sizes
  cookie_len : Nat
deriving DecidableEq

/-- The six syscall arguments of a `seccomp_data`, from a list (missing ones are 0). -/
def mkArgs (l : List Nat) : Fin 6 → Nat := fun i => l.getD i.val 0

/-- The size `sizeof(struct seccomp_notify_proxy_msg)`: 8 + 4 + 4 + 3 * 2, padded to 24, + 8. -/
def SECCOMP_PROXY_MSG_SIZE : Nat := 32

/-- The size `sizeof(struct seccomp_notif)`: 8 + 4 + 4 + 64. -/
def SECCOMP_NOTIFY_SIZE : Nat := 80

/-- The size `sizeof(struct seccomp_notif_resp)`: 8 + 8 + 4 + 4. -/
def SECCOMP_RESPONSE_SIZE : Nat := 24

def SECCOMP_MSG_SIZE_MIN : Nat :=
  SECCOMP_PROXY_MSG_SIZE + SECCOMP_NOTIFY_SIZE + SECCOMP_RESPONSE_SIZE

/-! ## device_allowed -/

/-- The C function `device_allowed(dev, mode)`: eight tests in source order, each
`dev == makedev(..) && (mode & S_IFCHR)`, then `-EPERM`. -/
def device_allowed (dev mode : Nat) : Int :=
  if dev = makedev 0 0 ∧ mode &&& S_IFCHR ≠ 0 then 0
  else if dev = makedev 5 1 ∧ mode &&& S_IFCHR ≠ 0 then 0
  else if dev = makedev 1 7 ∧ mode &&& S_IFCHR ≠ 0 then 0
  else if dev = makedev 1 3 ∧ mode &&& S_IFCHR ≠ 0 then 0
  else if dev = makedev 1 8 ∧ mode &&& S_IFCHR ≠ 0 then 0
  else if dev = makedev 5 0 ∧ mode &&& S_IFCHR ≠ 0 then 0
  else if dev = makedev 1 9 ∧ mode &&& S_IFCHR ≠ 0 then 0
  else if dev = makedev 1 5 ∧ mode &&& S_IFCHR ≠ 0 then 0
  else -EPERM

/-! ## The syscall table -/

structure lxd_seccomp_data_arch where
  arch : Nat
  nr_mknod : Int
  nr_mknodat : Int
deriving DecidableEq

/-! The `AUDIT_ARCH_*` identifiers of `linux/audit.h` (`EM_*` machine number, or-ed
with `__AUDIT_ARCH_64BIT` 0x80000000, `__AUDIT_ARCH_LE` 0x40000000 and
`__AUDIT_ARCH_CONVENTION_MIPS64_N32` 0x20000000). -/

def AUDIT_ARCH_X86_64 : Nat := 0xC000003E
def AUDIT_ARCH_I386 : Nat := 0x40000003
def AUDIT_ARCH_AARCH64 : Nat := 0xC00000B7
def AUDIT_ARCH_ARM : Nat := 0x40000028
def AUDIT_ARCH_ARMEB : Nat := 0x00000028
def AUDIT_ARCH_S390 : Nat := 0x00000016
def AUDIT_ARCH_S390X : Nat := 0x80000016
def AUDIT_ARCH_PPC : Nat := 0x00000014
def AUDIT_ARCH_PPC64 : Nat := 0x80000015
def AUDIT_ARCH_PPC64LE : Nat := 0xC0000015
def AUDIT_ARCH_SPARC : Nat := 0x00000002
def AUDIT_ARCH_SPARC64 : Nat := 0x8000002B
def AUDIT_ARCH_MIPS : Nat := 0x00000008
def AUDIT_ARCH_MIPSEL : Nat := 0x40000008
def AUDIT_ARCH_MIPS64 : Nat := 0x80000008
def AUDIT_ARCH_MIPS64N32 : Nat := 0xA0000008
def AUDIT_ARCH_MIPSEL64 : Nat := 0xC0000008
def AUDIT_ARCH_MIPSEL64N32 : Nat := 0xE0000008

/-- The table `seccomp_notify_syscall_table`, every row present, in source order. -/
def seccomp_notify_syscall_table : List lxd_seccomp_data_arch :=
  [ ⟨AUDIT_ARCH_X86_64, 133, 259⟩,
    ⟨AUDIT_ARCH_I386, 14, 297⟩,
    ⟨AUDIT_ARCH_AARCH64, -1, 33⟩,
    ⟨AUDIT_ARCH_ARM, 14, 324⟩,
    ⟨AUDIT_ARCH_ARMEB, 14, 324⟩,
    ⟨AUDIT_ARCH_S390, 14, 290⟩,
    ⟨AUDIT_ARCH_S390X, 14, 290⟩,
    ⟨AUDIT_ARCH_PPC, 14, 288⟩,
    ⟨AUDIT_ARCH_PPC64, 14, 288⟩,
    ⟨AUDIT_ARCH_PPC64LE, 14, 288⟩,
    ⟨AUDIT_ARCH_SPARC, 14, 286⟩,
    ⟨AUDIT_ARCH_SPARC64, 14, 286⟩,
    ⟨AUDIT_ARCH_MIPS, 14, 290⟩,
    ⟨AUDIT_ARCH_MIPSEL, 14, 290⟩,
    ⟨AUDIT_ARCH_MIPS64, 131, 249⟩,
    ⟨AUDIT_ARCH_MIPS64N32, 131, 253⟩,
    ⟨AUDIT_ARCH_MIPSEL64, 131, 249⟩,
    ⟨AUDIT_ARCH_MIPSEL64N32, 131, 253⟩ ]

/-! ## Go strings and the library functions the broker uses

A Go string is a sequence of bytes; here it is a `String` whose characters each
stand for one byte. -/

/-- The verb `%d` of `fmt.Sprintf` on a signed integer. -/
def fmtD (x : Int) : String := toString x

/-- The verb `%#o` of `fmt.Sprintf` on an unsigned integer: octal with a leading 0. -/
def fmtSharpO (x : Nat) : String :=
  if x = 0 then "0" else String.mk ('0' :: Nat.toDigits 8 x)

/-- The value of a sequence of decimal digits. -/
def digitsValue (ds : List Char) : Nat :=
  ds.foldl (fun n c => n * 10 + (c.toNat - '0'.toNat)) 0

/-- The function `strconv.Atoi` with a 64-bit `int`: an optional sign, then one or more
decimal digits and nothing else; `none` is a syntax or range error. -/
def Atoi (s : String) : Option Int :=
  let cs := s.toList
  let sd : Bool × List Char :=
    match cs with
    | '-' :: r => (true, r)
    | '+' :: r => (false, r)
    | _ => (false, cs)
  if sd.2.isEmpty || !sd.2.all Char.isDigit then none
  else
    let v : Int := if sd.1 then -(digitsValue sd.2 : Int) else (digitsValue sd.2 : Int)
    if v < -(2 ^ 63) ∨ 2 ^ 63 - 1 < v then none else some v

/-- The class `\s` of Go regular expressions: tab, newline, form feed, carriage return, space. -/
def isSpace (c : Char) : Bool :=
  c = '\t' || c = '\n' || c = '\x0c' || c = '\r' || c = ' '

/-- What follows the leftmost occurrence of `pat` in a line, if it occurs. -/
def afterFirst (pat : List Char) : List Char → Option (List Char)
  | [] => if pat.isEmpty then some [] else none
  | c :: cs =>
    if pat.isPrefixOf (c :: cs) then some ((c :: cs).drop pat.length)
    else afterFirst pat cs

/-- The call `regexp.MustCompile(tag ++ "\\s*([0-9]*)\\s*([0-9]*)").FindStringSubmatch(line)`
for a literal `tag`: the leftmost match, every star greedy; the two groups, or `none`
when the line does not contain the tag. -/
def FindStringSubmatch (tag : String) (line : List Char) : Option (List Char × List Char) :=
  (afterFirst tag.toList line).map fun r =>
    let r1 := r.dropWhile isSpace
    let r2 := (r1.dropWhile Char.isDigit).dropWhile isSpace
    (r1.takeWhile Char.isDigit, r2.takeWhile Char.isDigit)

/-- The call `strings.Split(s, "\n")`. -/
def splitLines : List Char → List (List Char)
  | [] => [[]]
  | c :: cs =>
    if c = '\n' then [] :: splitLines cs
    else
      match splitLines cs with
      | [] => [[c]]
      | l :: ls => (c :: l) :: ls

/-- The elements of a path between its slashes. -/
def splitSlash : List Char → List (List Char)
  | [] => [[]]
  | c :: cs =>
    if c = '/' then [] :: splitSlash cs
    else
      match splitSlash cs with
      | [] => [[c]]
      | l :: ls => (c :: l) :: ls

/-- The loop of Go's `path.Clean` over the elements of the path: `out` holds the elements
written so far, last first, and `dotdot` how many of them are leading `..` elements, which
cannot be dropped. -/
def cleanLoop (rooted : Bool) : List (List Char) → List (List Char) → Nat → List (List Char)
  | [], out, _ => out.reverse
  | e :: es, out, dotdot =>
    if e = [] ∨ e = ['.'] then cleanLoop rooted es out dotdot
    else if e = ['.', '.'] then
      if dotdot < out.length then cleanLoop rooted es out.tail dotdot
      else if !rooted then cleanLoop rooted es (e :: out) (out.length + 1)
      else cleanLoop rooted es out dotdot
    else cleanLoop rooted es (e :: out) dotdot

/-- The function `path.Clean` (and `filepath.Clean` on Linux). -/
def Clean (p : String) : String :=
  match p.toList with
  | [] => "."
  | c :: cs =>
    let rooted := c = '/'
    let body := List.intercalate ['/'] (cleanLoop rooted (splitSlash (c :: cs)) [] 0)
    if rooted then String.mk ('/' :: body)
    else if body = [] then "." else String.mk body

/-- The function `filepath.Join` on Linux: the elements from the first non-empty one on,
joined with slashes and cleaned; the empty string when every element is empty. -/
def Join (elem : List String) : String :=
  match elem.dropWhile (fun e => e = "") with
  | [] => ""
  | es => Clean (String.intercalate "/" es)

/-- The function `strings.TrimPrefix`. -/
def TrimPrefix (s pre : String) : String :=
  if pre.toList.isPrefixOf s.toList then String.mk (s.toList.drop pre.toList.length) else s

/-- The function `path.IsAbs`. -/
def IsAbs (p : String) : Bool :=
  match p.toList with
  | c :: _ => c = '/'
  | [] => false

/-- The call `C.GoString(&buf[0])`: the bytes of the buffer before its first NUL. (C reads on
past a buffer that holds no NUL; here the string ends with the buffer.) -/
def GoString (buf : List Nat) : String :=
  String.mk ((buf.takeWhile (fun b => b ≠ 0)).map Char.ofNat)

/-! ## The world outside the broker -/

/-- A `types.Device`, Go's `map[string]string`, as the list of its entries. -/
abbrev Device := List (String × String)

/-- The assignment `dev[k] = v`. -/
def devSet (dev : Device) (k v : String) : Device :=
  dev.filter (fun kv => kv.1 ≠ k) ++ [(k, v)]

/-- The lookup `dev[k]`, the empty string for a missing key. -/
def devGet (dev : Device) (k : String) : String :=
  ((dev.find? (fun kv => kv.1 = k)).map Prod.snd).getD ""

/-- What `pread(fd_mem, buf, size, offset)` does: fail with an errno, or transfer bytes. -/
inductive PreadResult where
  | error (errno : Nat)
  | data (bytes : List Nat)

/-- The three values `shared.RunCommandSplit` returns; `err` is whether the error is non-nil. -/
structure CommandResult where
  stdout : String
  stderr : String
  err : Bool

/-- The methods of the `container` interface that the broker calls. -/
structure Container where
  Name : String
  IsPrivileged : Bool
  /-- The pair `(*idmap.IdmapSet, error)`: an error, or the set with `none` for nil. -/
  DiskIdmap : Except String (Option String)
  /-- The error of `InsertSeccompUnixDevice(name, dev, pid)`, `none` for nil. -/
  InsertSeccompUnixDevice : String → Device → Int → Option String

structure World where
  /-- The C global `expected_sizes`, filled in by `NewSeccompServer`. -/
  expected_sizes : seccomp_notif_sizes
  /-- The call `pread(fd, buf, size, offset)` on the peer memory. -/
  pread : Int → Nat → Nat → PreadResult
  /-- The container of `findContainerForPid`, `none` for nil. -/
  findContainerForPid : Int → Option Container
  /-- The flag `s.d.os.Shiftfs`. -/
  Shiftfs : Bool
  /-- The call `os.Readlink`, `none` on error. -/
  Readlink : String → Option String
  /-- The call `ioutil.ReadFile`, `none` on error. -/
  ReadFile : String → Option String
  /-- The value of `util.GetExecPath()`. -/
  execPath : String
  RunCommandSplit : String → List String → CommandResult
  /-- The byte count `sendmsg` returns for a response sent on a descriptor. -/
  sendmsg : Int → seccomp_notif_resp → Int

/-- The calls the broker makes to the outside, and one marker for each call of `doMknod`. -/
inductive Event where
  | pread (fd : Int) (size offset : Nat)
  | findContainerForPid (pid : Int)
  | DiskIdmap (container : String)
  | doMknod (requestPID : Int) (permissionsOnly : Bool)
  | Readlink (path : String)
  | ReadFile (path : String)
  | RunCommandSplit (name : String) (args : List String)
  | InsertSeccompUnixDevice (name : String) (dev : Device) (pid : Int)
  /-- The three-part record (proxy header, notification, response) of `SendSeccompIovec`;
  the first two parts are the received ones. -/
  | sendmsg (fd : Int) (resp : seccomp_notif_resp)
  /-- The empty `msghdr` of `InvalidHandler`. -/
  | sendmsgEmpty (fd : Int)
deriving DecidableEq

def Event.isPread : Event → Bool
  | .pread _ _ _ => true
  | _ => false

def Event.isFindContainer : Event → Bool
  | .findContainerForPid _ => true
  | _ => false

def Event.isDoMknod : Event → Bool
  | .doMknod _ _ => true
  | _ => false

def Event.isHelper : Event → Bool
  | .RunCommandSplit _ _ => true
  | _ => false

def Event.isInsert : Event → Bool
  | .InsertSeccompUnixDevice _ _ _ => true
  | _ => false

def Event.isSend : Event → Bool
  | .sendmsg _ _ => true
  | .sendmsgEmpty _ => true
  | _ => false

/-- The fields of a `SeccompIovec` that the broker reads and writes. -/
structure SeccompIovec where
  ucredPid : Int
  memFd : Int
  procFd : Int
  msg : seccomp_notify_proxy_msg
  req : seccomp_notif
  resp : seccomp_notif_resp

/-! ## Validation and dispatch -/

/-- The method `IsValidSeccompIovec(size)`. -/
def IsValidSeccompIovec (w : World) (siov : SeccompIovec) (size : Nat) : Bool :=
  if size < SECCOMP_MSG_SIZE_MIN then false
  else if siov.msg.__reserved ≠ 0 then false
  else if siov.msg.sizes.seccomp_notif ≠ w.expected_sizes.seccomp_notif then false
  else if siov.msg.sizes.seccomp_notif_resp ≠ w.expected_sizes.seccomp_notif_resp then false
  else if siov.msg.sizes.seccomp_data ≠ w.expected_sizes.seccomp_data then false
  else true

/-- Which of the two handlers the receive loop of `NewSeccompServer` starts. -/
inductive Dispatch where
  | Handler
  | InvalidHandler
deriving DecidableEq

/-- The branch `if siov.IsValidSeccompIovec(bytes)` of the receive loop. -/
def dispatch (w : World) (siov : SeccompIovec) (bytes : Nat) : Dispatch :=
  if IsValidSeccompIovec w siov bytes then Dispatch.Handler else Dispatch.InvalidHandler

/-- The method `InvalidHandler`: one empty message. -/
def InvalidHandler (clientFd : Int) : List Event := [Event.sendmsgEmpty clientFd]

/-! ## seccomp_notify_mknod_set_response -/

/-- What `seccomp_notify_mknod_set_response` leaves behind: its return value, the response,
the path buffer, the three out-parameters (untouched, zero, unless it returns 0) and its reads
of the peer memory. -/
structure SetResponseResult where
  ret : Int
  resp : seccomp_notif_resp
  buf : List Nat
  mode : Nat
  dev : Nat
  pid : Int
  events : List Event

/-- The buffer of `size` zero bytes after `pread` has written `bytes` at its start. -/
def fillBuf (size : Nat) (bytes : List Nat) : List Nat :=
  bytes.take size ++ List.replicate (size - (bytes.take size).length) 0

/-- The body shared by the `mknod` and `mknodat` branches: the device test, the read of the
path at `pathArg`, the out-parameters. -/
def decodeMknod (w : World) (fd_mem : Int) (req : seccomp_notif) (resp : seccomp_notif_resp)
    (size pathArg modeArg devArg : Nat) : SetResponseResult :=
  let resp1 := { resp with error := device_allowed devArg (toModeT modeArg) }
  if resp1.error ≠ 0 then
    ⟨-EPERM, resp1, List.replicate size 0, 0, 0, 0, []⟩
  else
    match w.pread fd_mem size pathArg with
    | PreadResult.error errno =>
      ⟨-(errno : Int), resp1, List.replicate size 0, 0, 0, 0, [Event.pread fd_mem size pathArg]⟩
    | PreadResult.data bytes =>
      ⟨0, resp1, fillBuf size bytes, toModeT modeArg, devArg, toCInt req.pid,
        [Event.pread fd_mem size pathArg]⟩

/-- The loop over the syscall table. -/
def setResponseLoop (w : World) (fd_mem : Int) (req : seccomp_notif) (resp : seccomp_notif_resp)
    (size : Nat) : List lxd_seccomp_data_arch → SetResponseResult
  | [] => ⟨-EPERM, resp, List.replicate size 0, 0, 0, 0, []⟩
  | entry :: rest =>
    if entry.arch ≠ req.data.arch then setResponseLoop w fd_mem req resp size rest
    else if entry.nr_mknod = req.data.nr then
      decodeMknod w fd_mem req resp size (req.data.args 0) (req.data.args 1) (req.data.args 2)
    else if entry.nr_mknodat = req.data.nr then
      if toCInt (req.data.args 0) ≠ AT_FDCWD then
        ⟨-EINVAL, resp, List.replicate size 0, 0, 0, 0, []⟩
      else
        decodeMknod w fd_mem req resp size (req.data.args 1) (req.data.args 2) (req.data.args 3)
    else ⟨-EPERM, resp, List.replicate size 0, 0, 0, 0, []⟩

/-- The C function `seccomp_notify_mknod_set_response(fd_mem, req, resp, buf, size, ...)`,
called with a zeroed buffer and zeroed out-parameters. -/
def seccomp_notify_mknod_set_response (w : World) (fd_mem : Int) (req : seccomp_notif)
    (size : Nat) : SetResponseResult :=
  setResponseLoop w fd_mem req ⟨req.id, 0, 0, req.flags⟩ size seccomp_notify_syscall_table

/-- The C function `seccomp_notify_mknod_update_response`. -/
def seccomp_notify_mknod_update_response (resp : seccomp_notif_resp) (new_neg_errno : Int) :
    seccomp_notif_resp :=
  { resp with error := new_neg_errno }

/-- What `SendSeccompIovec` leaves behind: the response as sent, the message sent, and the
error it returns (`none` for nil). -/
structure SendResult where
  resp : seccomp_notif_resp
  events : List Event
  err : Option String

/-- The method `SendSeccompIovec(fd, goErrno)`. -/
def SendSeccompIovec (w : World) (siov : SeccompIovec) (fd : Int) (goErrno : Int) : SendResult :=
  let resp := seccomp_notify_mknod_update_response siov.resp (toCInt goErrno)
  let bytes := w.sendmsg fd resp
  if bytes < 0 then
    ⟨resp, [Event.sendmsg fd resp], some "Failed to send response to seccomp client"⟩
  else if bytes ≠ (SECCOMP_MSG_SIZE_MIN : Int) then
    ⟨resp, [Event.sendmsg fd resp], some "Failed to send full response to seccomp client"⟩
  else ⟨resp, [Event.sendmsg fd resp], none⟩

/-! ## taskUidGid and doMknod -/

/-- The variables of the loop of `taskUidGid`. -/
structure UidGidScan where
  uid : Int
  gid : Int
  uidFound : Bool
  gidFound : Bool

/-- The loop of `taskUidGid` over the lines of the status file; `none` is the return of an
`Atoi` error. -/
def taskUidGidLoop : List (List Char) → UidGidScan → Option UidGidScan
  | [], st => some st
  | line :: rest, st =>
    if st.uidFound && st.gidFound then some st
    else
      match (if !st.uidFound then FindStringSubmatch "Uid:" line else none) with
      | some m =>
        match Atoi (String.mk m.2) with
        | none => none
        | some result => taskUidGidLoop rest { st with uid := toInt32 result, uidFound := true }
      | none =>
        match (if !st.gidFound then FindStringSubmatch "Gid:" line else none) with
        | some m =>
          match Atoi (String.mk m.2) with
          | none => none
          | some result => taskUidGidLoop rest { st with gid := toInt32 result, gidFound := true }
        | none => taskUidGidLoop rest st

/-- The function `taskUidGid(pid)`: `none` when it returns an error, else the uid and gid. -/
def taskUidGid (w : World) (pid : Int) : Option (Int × Int) :=
  match w.ReadFile ("/proc/" ++ fmtD pid ++ "/status") with
  | none => none
  | some status =>
    (taskUidGidLoop (splitLines status.toList) ⟨0, 0, false, false⟩).map
      fun st => (st.uid, st.gid)

/-- What `doMknod` leaves behind: its return value, the device map (which it updates in
place) and its calls to the outside. -/
structure DoMknodResult where
  ret : Int
  dev : Device
  events : List Event

/-- The arguments after the executable's path with which `doMknod` runs the helper. -/
def helperArgs (dev : Device) (uid gid : Int) (permissionsOnly : Bool) : List String :=
  let deBool : Int := if permissionsOnly then 1 else 0
  ["forkmknod", devGet dev "pid", devGet dev "path", devGet dev "mode_t", devGet dev "dev_t",
    devGet dev "hostpath", fmtD uid, fmtD gid, fmtD deBool]

/-- The last step of `doMknod`, once `dev["hostpath"]` is set: run the helper and map its
exit. `pre` is what `doMknod` has called before. -/
def doMknodRun (w : World) (dev : Device) (uid gid : Int) (permissionsOnly : Bool)
    (pre : List Event) : DoMknodResult :=
  let goErrno : Int := -EPERM
  let out := w.RunCommandSplit w.execPath (helperArgs dev uid gid permissionsOnly)
  let events := pre ++ [Event.RunCommandSplit w.execPath (helperArgs dev uid gid permissionsOnly)]
  if out.err then
    match Atoi out.stderr with
    | some tmp =>
      if tmp ≠ ENOANO then ⟨toGoInt (-tmp), dev, events⟩ else ⟨goErrno, dev, events⟩
    | none => ⟨goErrno, dev, events⟩
  else ⟨0, dev, events⟩

/-- The method `doMknod(c, dev, requestPID, permissionsOnly)`. -/
def doMknod (w : World) (_c : Container) (dev : Device) (requestPID : Int)
    (permissionsOnly : Bool) : DoMknodResult :=
  let goErrno : Int := -EPERM
  let rootLink := "/proc/" ++ fmtD requestPID ++ "/root"
  let statusFile := "/proc/" ++ fmtD requestPID ++ "/status"
  let cwdLink := "/proc/" ++ fmtD requestPID ++ "/cwd"
  match w.Readlink rootLink with
  | none => ⟨goErrno, dev, [Event.Readlink rootLink]⟩
  | some rootPath =>
    match taskUidGid w requestPID with
    | none => ⟨goErrno, dev, [Event.Readlink rootLink, Event.ReadFile statusFile]⟩
    | some (uid, gid) =>
      if !IsAbs (devGet dev "path") then
        match w.Readlink cwdLink with
        | none =>
          ⟨goErrno, dev,
            [Event.Readlink rootLink, Event.ReadFile statusFile, Event.Readlink cwdLink]⟩
        | some prefixPath =>
          doMknodRun w
            (devSet dev "hostpath"
              (Join [rootPath, TrimPrefix prefixPath rootPath, devGet dev "path"]))
            uid gid permissionsOnly
            [Event.Readlink rootLink, Event.ReadFile statusFile, Event.Readlink cwdLink]
      else
        doMknodRun w (devSet dev "hostpath" (Join [rootPath, devGet dev "path"]))
          uid gid permissionsOnly [Event.Readlink rootLink, Event.ReadFile statusFile]

/-! ## Handler -/

/-- What `Handler` leaves behind: the value it hands to `SendSeccompIovec`, the response
as sent, its calls to the outside in order, and the error it returns. -/
structure HandlerResult where
  goErrno : Int
  resp : seccomp_notif_resp
  events : List Event
  err : Option String

/-- The device map `Handler` builds from a decoded request. -/
def handlerDevice (r : SetResponseResult) : Device :=
  let dev : Device := []
  let dev := devSet dev "type" "unix-char"
  let dev := devSet dev "mode" (fmtSharpO r.mode)
  let dev := devSet dev "major" (fmtD (unixMajor r.dev))
  let dev := devSet dev "minor" (fmtD (unixMinor r.dev))
  let dev := devSet dev "pid" (fmtD r.pid)
  let dev := devSet dev "path" (GoString r.buf)
  let dev := devSet dev "mode_t" (fmtD r.mode)
  devSet dev "dev_t" (fmtD r.dev)

/-- The last step of `Handler`: send `goErrno` and return. -/
def handlerSend (w : World) (siov : SeccompIovec) (clientFd : Int) (pre : List Event)
    (goErrno : Int) : HandlerResult :=
  let s := SendSeccompIovec w siov clientFd goErrno
  ⟨goErrno, s.resp, pre ++ s.events, s.err⟩

/-- The steps of `Handler` after `doMknod` has returned: the `-ENOMEDIUM` test, the
registration of the device, the send. -/
def handlerAfterMknod (w : World) (siov : SeccompIovec) (clientFd : Int) (c : Container)
    (pid : Int) (pre : List Event) (m : DoMknodResult) : HandlerResult :=
  if m.ret = -ENOMEDIUM then
    let name := "forkmknod.unix." ++ fmtD pid
    let events := pre ++ m.events ++ [Event.InsertSeccompUnixDevice name m.dev pid]
    match c.InsertSeccompUnixDevice name m.dev pid with
    | some _ => handlerSend w siov clientFd events (-EPERM)
    | none => handlerSend w siov clientFd events 0
  else handlerSend w siov clientFd (pre ++ m.events) m.ret

/-- The call of `seccomp_notify_mknod_set_response` that `Handler` makes, on the descriptor
of the peer memory and a path buffer of `unix.PathMax` bytes. -/
def handlerDecode (w : World) (siov : SeccompIovec) : SetResponseResult :=
  seccomp_notify_mknod_set_response w siov.memFd siov.req PathMax

/-- The method `Handler(c, clientFd, siov)`. (Its log lines are left out.) -/
def Handler (w : World) (clientFd : Int) (siov : SeccompIovec) : HandlerResult :=
  let r := handlerDecode w siov
  let siov1 := { siov with resp := r.resp }
  if r.ret = 0 then
    let dev := handlerDevice r
    let ev1 := r.events ++ [Event.findContainerForPid (toInt32 siov.msg.monitor_pid)]
    match w.findContainerForPid (toInt32 siov.msg.monitor_pid) with
    | none => handlerSend w siov1 clientFd ev1 r.ret
    | some c =>
      let ev2 := ev1 ++ [Event.DiskIdmap c.Name]
      match c.DiskIdmap with
      | Except.error _ => handlerSend w siov1 clientFd ev2 (-EPERM)
      | Except.ok diskIdmap =>
        if w.Shiftfs && !c.IsPrivileged && diskIdmap.isNone then
          handlerAfterMknod w siov1 clientFd c r.pid (ev2 ++ [Event.doMknod r.pid true])
            (doMknod w c dev r.pid true)
        else
          handlerAfterMknod w siov1 clientFd c r.pid (ev2 ++ [Event.doMknod r.pid false])
            (doMknod w c dev r.pid false)
  else handlerSend w siov1 clientFd r.events r.ret

/-! ## The exit mapping as the specification words it -/

/-- The last whitespace-separated token of a text. -/
def lastToken (s : String) : String :=
  String.mk (((s.toList.reverse.dropWhile isSpace).takeWhile (fun c => !isSpace c)).reverse)

/-- The specification's mapping of the helper's exit: success gives zero; on failure the last
token of stderr is parsed as an integer `n`, giving `-EPERM` when `n` is `ENOANO` and `-n`
otherwise. `none` where the specification gives no value (the token is not an integer). -/
def specHelperExit (failed : Bool) (stderr : String) : Option Int :=
  if !failed then some 0
  else (Atoi (lastToken stderr)).map fun n => if n = ENOANO then -EPERM else -n

/-! ## Concrete notifications -/

/-- The bytes of the C string "/dev/null", with its NUL. -/
def devNullBytes : List Nat := [47, 100, 101, 118, 47, 110, 117, 108, 108, 0]

/-- A status file of a task that runs as uid 1000 and gid 1000. -/
def sampleStatus : String :=
  "Name:\tmknod\nUid:\t1000\t1000\t1000\t1000\nGid:\t1000\t1000\t1000\t1000\n"

/-- An unprivileged container without a disk id-mapping, whose device registration
succeeds or fails as told. -/
def sampleContainer (insertFails : Bool) : Container :=
  { Name := "c1"
    IsPrivileged := false
    DiskIdmap := Except.ok none
    InsertSeccompUnixDevice := fun _ _ _ => if insertFails then some "insert failed" else none }

/-- A world in which the peer memory holds "/dev/null" at every offset, the requester's
root and cwd are "/", the registry answers `container` and the helper ends as `helper`. -/
def sampleWorld (container : Option Container) (helper : CommandResult) : World :=
  { expected_sizes := ⟨80, 24, 64⟩
    pread := fun _ _ _ => PreadResult.data devNullBytes
    findContainerForPid := fun _ => container
    Shiftfs := true
    Readlink := fun _ => some "/"
    ReadFile := fun _ => some sampleStatus
    execPath := "/usr/bin/lxd"
    RunCommandSplit := fun _ _ => helper
    sendmsg := fun _ _ => 136 }

/-- A received record with request id 7, requester pid 42 and flags 3. -/
def sampleIovec (arch : Nat) (nr : Int) (args : List Nat) : SeccompIovec :=
  { ucredPid := 1
    memFd := 9
    procFd := -1
    msg := ⟨0, 100, 101, ⟨80, 24, 64⟩, 0⟩
    req := ⟨7, 42, 3, ⟨nr, arch, 0, mkArgs args⟩⟩
    resp := ⟨0, 0, 0, 0⟩ }

/-! ## The policy generator -/

/-- The constant `SECCOMP_HEADER`. -/
def SECCOMP_HEADER : String := "2\n"

/-- The constant `DEFAULT_SECCOMP_POLICY`. -/
def DEFAULT_SECCOMP_POLICY : String :=
  "reject_force_umount  # comment this to allow umount -f;  not recommended\n" ++
  "[all]\n" ++
  "kexec_load errno 38\n" ++
  "open_by_handle_at errno 38\n" ++
  "init_module errno 38\n" ++
  "finit_module errno 38\n" ++
  "delete_module errno 38\n"

/-- The constant `SECCOMP_NOTIFY_POLICY`; its last line has no newline. -/
def SECCOMP_NOTIFY_POLICY : String :=
  "mknod notify [1,8192,SCMP_CMP_MASKED_EQ,61440]\n" ++
  "mknod notify [1,24576,SCMP_CMP_MASKED_EQ,61440]\n" ++
  "mknodat notify [2,8192,SCMP_CMP_MASKED_EQ,61440]\n" ++
  "mknodat notify [2,24576,SCMP_CMP_MASKED_EQ,61440]"

/-- The text of `COMPAT_BLOCKING_POLICY` after its first line `[%s]`. -/
def COMPAT_BLOCKING_RULES : String :=
  "compat_sys_rt_sigaction errno 38\n" ++
  "stub_x32_rt_sigreturn errno 38\n" ++
  "compat_sys_ioctl errno 38\n" ++
  "compat_sys_readv errno 38\n" ++
  "compat_sys_writev errno 38\n" ++
  "compat_sys_recvfrom errno 38\n" ++
  "compat_sys_sendmsg errno 38\n" ++
  "compat_sys_recvmsg errno 38\n" ++
  "stub_x32_execve errno 38\n" ++
  "compat_sys_ptrace errno 38\n" ++
  "compat_sys_rt_sigpending errno 38\n" ++
  "compat_sys_rt_sigtimedwait errno 38\n" ++
  "compat_sys_rt_sigqueueinfo errno 38\n" ++
  "compat_sys_sigaltstack errno 38\n" ++
  "compat_sys_timer_create errno 38\n" ++
  "compat_sys_mq_notify errno 38\n" ++
  "compat_sys_kexec_load errno 38\n" ++
  "compat_sys_waitid errno 38\n" ++
  "compat_sys_set_robust_list errno 38\n" ++
  "compat_sys_get_robust_list errno 38\n" ++
  "compat_sys_vmsplice errno 38\n" ++
  "compat_sys_move_pages errno 38\n" ++
  "compat_sys_preadv64 errno 38\n" ++
  "compat_sys_pwritev64 errno 38\n" ++
  "compat_sys_rt_tgsigqueueinfo errno 38\n" ++
  "compat_sys_recvmmsg errno 38\n" ++
  "compat_sys_sendmmsg errno 38\n" ++
  "compat_sys_process_vm_readv errno 38\n" ++
  "compat_sys_process_vm_writev errno 38\n" ++
  "compat_sys_setsockopt errno 38\n" ++
  "compat_sys_getsockopt errno 38\n" ++
  "compat_sys_io_setup errno 38\n" ++
  "compat_sys_io_submit errno 38\n" ++
  "stub_x32_execveat errno 38\n"

/-- The call `fmt.Sprintf(COMPAT_BLOCKING_POLICY, arch)`: the constant is `[%s]`, a newline and
the compat rules, and holds no other verb. -/
def COMPAT_BLOCKING_POLICY (arch : String) : String :=
  "[" ++ arch ++ "]\n" ++ COMPAT_BLOCKING_RULES

/-- The part of `c.DaemonState()` that the policy generator reads. -/
structure DaemonState where
  /-- The flag `OS.RunningInUserNS`. -/
  RunningInUserNS : Bool
  /-- The answer of `lxcSupportSeccompNotify(state)`. -/
  lxcSupportSeccompNotify : Bool

/-- The `container` interface with the further methods that the policy generator calls;
`ExpandedConfig` is Go's `map[string]string`, `none` for a key that is not present. -/
structure container extends Container where
  ExpandedConfig : String → Option String
  Architecture : Int
  DaemonState : DaemonState

/-- What the policy generator uses of the host: the functions `shared.IsTrue` and
`osarch.ArchitectureName` (its error is `Except.error`), the directory
`shared.VarPath("security", "seccomp")` and the two file operations, each answering with its
error, `none` for nil. -/
structure Host where
  IsTrue : String → Bool
  ArchitectureName : Int → Except String String
  seccompPath : String
  MkdirAll : String → Nat → Option String
  WriteFile : String → String → Nat → Option String

/-- The lookup `config[k]` of a Go map: the empty string for a key that is not present. -/
def configGet (config : String → Option String) (k : String) : String :=
  (config k).getD ""

/-- The function `SeccompProfilePath(c)`. -/
def SeccompProfilePath (h : Host) (c : container) : String :=
  Join [h.seccompPath, c.Name]

/-- The function `ContainerNeedsSeccomp(c)`. -/
def ContainerNeedsSeccomp (h : Host) (c : container) : Bool :=
  let config := c.ExpandedConfig
  if ["raw.seccomp", "security.syscalls.whitelist", "security.syscalls.blacklist"].any
      (fun k => (config k).isSome) then true
  else if h.IsTrue (configGet config "security.syscalls.blacklist_compat") then true
  else if (config "security.syscalls.blacklist_default").isNone ||
      h.IsTrue (configGet config "security.syscalls.blacklist_default") then true
  else false

/-- The function `getSeccompProfileContent(c)`; `Except.error` is its non-nil error. -/
def getSeccompProfileContent (h : Host) (c : container) : Except String String :=
  let config := c.ExpandedConfig
  let raw := configGet config "raw.seccomp"
  if raw ≠ "" then Except.ok raw
  else
    let policy := SECCOMP_HEADER
    let whitelist := configGet config "security.syscalls.whitelist"
    if whitelist ≠ "" then Except.ok (policy ++ "whitelist\n[all]\n" ++ whitelist)
    else
      let policy := policy ++ "blacklist\n"
      let policy :=
        if (config "security.syscalls.blacklist_default").isNone ||
            h.IsTrue (configGet config "security.syscalls.blacklist_default") then
          policy ++ DEFAULT_SECCOMP_POLICY
        else policy
      let policy :=
        if !c.IsPrivileged && !c.DaemonState.RunningInUserNS &&
            c.DaemonState.lxcSupportSeccompNotify then
          policy ++ SECCOMP_NOTIFY_POLICY
        else policy
      let blacklist := configGet config "security.syscalls.blacklist"
      if h.IsTrue (configGet config "security.syscalls.blacklist_compat") then
        match h.ArchitectureName c.Architecture with
        | Except.error err => Except.error err
        | Except.ok arch =>
          let policy := policy ++ COMPAT_BLOCKING_POLICY arch
          Except.ok (if blacklist ≠ "" then policy ++ blacklist else policy)
      else Except.ok (if blacklist ≠ "" then policy ++ blacklist else policy)

/-- The file operations of `SeccompCreateProfile`. -/
inductive FileOp where
  | MkdirAll (path : String) (perm : Nat)
  | WriteFile (path : String) (data : String) (perm : Nat)
deriving DecidableEq

/-- What `SeccompCreateProfile` leaves behind: the error it returns, `none` for nil, and its
file operations in order. -/
structure CreateProfileResult where
  err : Option String
  ops : List FileOp

/-- The function `SeccompCreateProfile(c)`. -/
def SeccompCreateProfile (h : Host) (c : container) : CreateProfileResult :=
  if !ContainerNeedsSeccomp h c then ⟨none, []⟩
  else
    match getSeccompProfileContent h c with
    | Except.error _ => ⟨none, []⟩
    | Except.ok profile =>
      match h.MkdirAll h.seccompPath 0o700 with
      | some err => ⟨some err, [FileOp.MkdirAll h.seccompPath 0o700]⟩
      | none =>
        ⟨h.WriteFile (SeccompProfilePath h c) profile 0o600,
          [FileOp.MkdirAll h.seccompPath 0o700,
            FileOp.WriteFile (SeccompProfilePath h c) profile 0o600]⟩

/-! ## File types of a mode -/

/-- The mask `S_IFMT` of `sys/stat.h`, octal 0170000. -/
def S_IFMT : Nat := 0xF000

/-- The type `S_IFBLK` of `sys/stat.h`, octal 0060000. -/
def S_IFBLK : Nat := 0x6000

/-! ## Concrete containers -/

/-- A host whose `IsTrue` accepts the words true, 1, yes and on in any case and whose
architecture 2 is named x86_64, every other one having no name; its file operations
succeed. -/
def sampleHost : Host :=
  { IsTrue := fun value =>
      ["true", "1", "yes", "on"].contains (String.mk (value.toList.map Char.toLower))
    ArchitectureName := fun arch =>
      if arch = 2 then Except.ok "x86_64" else Except.error "Architecture isn't supported"
    seccompPath := "/var/lib/lxd/security/seccomp"
    MkdirAll := fun _ _ => none
    WriteFile := fun _ _ _ => none }

/-- A configuration map from the list of its entries. -/
def configOf (entries : List (String × String)) : String → Option String :=
  fun k => (entries.find? (fun kv => kv.1 = k)).map Prod.snd

/-- The container "c1" with the given configuration, privilege flag, architecture and
daemon state. -/
def samplePolicyContainer (entries : List (String × String)) (privileged : Bool)
    (arch : Int) (state : DaemonState) : container :=
  { toContainer := { sampleContainer false with IsPrivileged := privileged }
    ExpandedConfig := configOf entries
    Architecture := arch
    DaemonState := state }


/-! ## Concrete status files -/

/-- The status file of a task with uid and gid 1000 whose name is `name`. -/
def statusOf (name : String) : String :=
  "Name:\t" ++ name ++ "\nUmask:\t0022\nState:\tS (sleeping)\nTgid:\t42\nNgid:\t0\nPid:\t42\n" ++
    "PPid:\t1\nTracerPid:\t0\nUid:\t1000\t1000\t1000\t1000\nGid:\t1000\t1000\t1000\t1000\n"

/-- The sample world of a successful helper, with `status` as every status file. -/
def statusWorld (status : String) : World :=
  { sampleWorld (some (sampleContainer false)) ⟨"", "", false⟩ with
    ReadFile := fun _ => some status }

/-! ## Staying inside the requester's root -/

/-- The path that `doMknod` appends to the root in `dev["hostpath"]`: the device path when it is
absolute, else the cwd without the root as its prefix, a slash and the device path. -/
def containerPath (rootPath cwd path : String) : String :=
  if IsAbs path then path else TrimPrefix cwd rootPath ++ "/" ++ path

/-- Whether the elements of a path, read from left to right starting `depth` elements below
the place the path starts from, never step above that place with a `..` element. -/
def staysBelow : List (List Char) → Nat → Bool
  | [], _ => true
  | e :: es, depth =>
    if e = [] ∨ e = ['.'] then staysBelow es depth
    else if e = ['.', '.'] then
      match depth with
      | 0 => false
      | d + 1 => staysBelow es d
    else staysBelow es (depth + 1)

/-- A path lies inside a root, as the specification words it: it is the root, or it starts
with the root followed by a path separator. -/
def insideRoot (root p : String) : Bool :=
  p = root || (root ++ "/").toList.isPrefixOf p.toList

/-- The sample world of a successful helper in which the requester's root is `root` and its
cwd is `cwd`. -/
def rootedWorld (root cwd : String) : World :=
  { sampleWorld (some (sampleContainer false)) ⟨"", "", false⟩ with
    Readlink := fun p => if p = "/proc/42/root" then some root else some cwd }

/-! ## Lemmas -/

theorem toCInt_neg_EPERM : toCInt (-EPERM) = -EPERM := by decide
theorem toCInt_neg_EINVAL : toCInt (-EINVAL) = -EINVAL := by decide
theorem toCInt_zero : toCInt 0 = 0 := by decide

theorem toCInt_of_range (x : Int) (h1 : -(2 ^ 31) ≤ x) (h2 : x < 2 ^ 31) : toCInt x = x := by
  unfold toCInt wrapSigned
  norm_num
  rw [Int.emod_eq_of_lt] <;> omega

theorem table_find :
    ∀ e ∈ seccomp_notify_syscall_table,
      seccomp_notify_syscall_table.find? (fun x => decide (x.arch = e.arch)) = some e := by
  decide

theorem table_nr_ne : ∀ e ∈ seccomp_notify_syscall_table, e.nr_mknod ≠ e.nr_mknodat := by
  decide

theorem setResponseLoop_miss (w : World) (fd_mem : Int) (req : seccomp_notif)
    (resp : seccomp_notif_resp) (size : Nat) (tbl : List lxd_seccomp_data_arch)
    (h : ∀ e ∈ tbl, e.arch = req.data.arch →
      e.nr_mknod ≠ req.data.nr ∧ e.nr_mknodat ≠ req.data.nr) :
    setResponseLoop w fd_mem req resp size tbl =
      ⟨-EPERM, resp, List.replicate size 0, 0, 0, 0, []⟩ := by
  induction tbl with
  | nil => rfl
  | cons x xs ih =>
    unfold setResponseLoop
    by_cases ha : x.arch = req.data.arch
    · have hx := h x (List.mem_cons_self x xs) ha
      simp [ha, hx.1, hx.2]
    · simp only [ne_eq, ha, not_false_eq_true, if_true]
      exact ih (fun e he => h e (List.mem_cons_of_mem x he))

theorem setResponseLoop_row (w : World) (fd_mem : Int) (req : seccomp_notif)
    (resp : seccomp_notif_resp) (size : Nat) (tbl : List lxd_seccomp_data_arch)
    (e : lxd_seccomp_data_arch)
    (h : tbl.find? (fun x => decide (x.arch = req.data.arch)) = some e) :
    setResponseLoop w fd_mem req resp size tbl = setResponseLoop w fd_mem req resp size [e] := by
  induction tbl with
  | nil => simp at h
  | cons x xs ih =>
    by_cases ha : x.arch = req.data.arch
    · simp [List.find?, ha] at h
      subst h
      simp [setResponseLoop, ha]
    · simp [List.find?, ha] at h
      rw [← ih h]
      simp [setResponseLoop, ha]

theorem set_response_row (w : World) (fd_mem : Int) (req : seccomp_notif) (size : Nat)
    (e : lxd_seccomp_data_arch) (he : e ∈ seccomp_notify_syscall_table)
    (ha : e.arch = req.data.arch) :
    seccomp_notify_mknod_set_response w fd_mem req size =
      setResponseLoop w fd_mem req ⟨req.id, 0, 0, req.flags⟩ size [e] := by
  unfold seccomp_notify_mknod_set_response
  apply setResponseLoop_row
  rw [← ha]
  exact table_find e he

theorem Handler_of_ret_ne_zero (w : World) (clientFd : Int) (siov : SeccompIovec)
    (h : (handlerDecode w siov).ret ≠ 0) :
    Handler w clientFd siov =
      handlerSend w
        { siov with resp := (handlerDecode w siov).resp }
        clientFd (handlerDecode w siov).events
        (handlerDecode w siov).ret := by
  unfold Handler
  simp [h]

theorem handlerSend_resp (w : World) (siov : SeccompIovec) (clientFd : Int) (pre : List Event)
    (goErrno : Int) :
    (handlerSend w siov clientFd pre goErrno).resp = { siov.resp with error := toCInt goErrno } ∧
    (handlerSend w siov clientFd pre goErrno).goErrno = goErrno ∧
    (handlerSend w siov clientFd pre goErrno).events =
      pre ++ [Event.sendmsg clientFd { siov.resp with error := toCInt goErrno }] := by
  simp only [handlerSend, SendSeccompIovec, seccomp_notify_mknod_update_response]
  split_ifs <;> simp



theorem decodeMknod_resp (w : World) (fd_mem : Int) (req : seccomp_notif)
    (resp : seccomp_notif_resp) (size pathArg modeArg devArg : Nat) :
    (decodeMknod w fd_mem req resp size pathArg modeArg devArg).resp.id = resp.id ∧
    (decodeMknod w fd_mem req resp size pathArg modeArg devArg).resp.val = resp.val ∧
    (decodeMknod w fd_mem req resp size pathArg modeArg devArg).resp.flags = resp.flags := by
  simp only [decodeMknod]
  split_ifs
  · simp
  · split <;> simp

theorem setResponseLoop_resp (w : World) (fd_mem : Int) (req : seccomp_notif)
    (resp : seccomp_notif_resp) (size : Nat) (tbl : List lxd_seccomp_data_arch) :
    (setResponseLoop w fd_mem req resp size tbl).resp.id = resp.id ∧
    (setResponseLoop w fd_mem req resp size tbl).resp.val = resp.val ∧
    (setResponseLoop w fd_mem req resp size tbl).resp.flags = resp.flags := by
  induction tbl with
  | nil => simp [setResponseLoop]
  | cons x xs ih =>
    unfold setResponseLoop
    split_ifs
    · exact ih
    · exact decodeMknod_resp _ _ _ _ _ _ _ _
    · simp
    · exact decodeMknod_resp _ _ _ _ _ _ _ _
    · simp

theorem decodeMknod_rejected (w : World) (fd_mem : Int) (req : seccomp_notif)
    (resp : seccomp_notif_resp) (size pathArg modeArg devArg : Nat)
    (h : device_allowed devArg (toModeT modeArg) ≠ 0) :
    decodeMknod w fd_mem req resp size pathArg modeArg devArg =
      ⟨-EPERM, { resp with error := device_allowed devArg (toModeT modeArg) },
        List.replicate size 0, 0, 0, 0, []⟩ := by
  simp [decodeMknod, h]


theorem decodeMknod_events (w : World) (fd_mem : Int) (req : seccomp_notif)
    (resp : seccomp_notif_resp) (size pathArg modeArg devArg : Nat) :
    ∀ ev ∈ (decodeMknod w fd_mem req resp size pathArg modeArg devArg).events,
      ev = Event.pread fd_mem size pathArg := by
  simp only [decodeMknod]
  split_ifs
  · simp
  · split <;> simp

theorem setResponseLoop_events (w : World) (fd_mem : Int) (req : seccomp_notif)
    (resp : seccomp_notif_resp) (size : Nat) (tbl : List lxd_seccomp_data_arch) :
    ∀ ev ∈ (setResponseLoop w fd_mem req resp size tbl).events, ev.isPread = true := by
  induction tbl with
  | nil => simp [setResponseLoop]
  | cons x xs ih =>
    unfold setResponseLoop
    split_ifs
    · exact ih
    · intro ev hev
      rw [decodeMknod_events _ _ _ _ _ _ _ _ ev hev]
      rfl
    · simp
    · intro ev hev
      rw [decodeMknod_events _ _ _ _ _ _ _ _ ev hev]
      rfl
    · simp

theorem doMknodRun_events (w : World) (dev : Device) (uid gid : Int) (permissionsOnly : Bool)
    (pre : List Event) :
    (doMknodRun w dev uid gid permissionsOnly pre).events =
      pre ++ [Event.RunCommandSplit w.execPath (helperArgs dev uid gid permissionsOnly)] := by
  simp only [doMknodRun]
  split_ifs
  · split
    · split_ifs <;> rfl
    · rfl
  · rfl

theorem doMknod_events (w : World) (c : Container) (dev : Device) (requestPID : Int)
    (permissionsOnly : Bool) :
    ∀ ev ∈ (doMknod w c dev requestPID permissionsOnly).events,
      ev.isSend = false ∧ ev.isInsert = false ∧ ev.isDoMknod = false ∧
        ev.isFindContainer = false ∧ ev.isPread = false := by
  simp only [doMknod]
  split
  · simp [Event.isSend, Event.isInsert, Event.isDoMknod, Event.isFindContainer, Event.isPread]
  · split
    · simp [Event.isSend, Event.isInsert, Event.isDoMknod, Event.isFindContainer, Event.isPread]
    · split_ifs
      · split
        · simp [Event.isSend, Event.isInsert, Event.isDoMknod, Event.isFindContainer,
            Event.isPread]
        · rw [doMknodRun_events]
          simp [Event.isSend, Event.isInsert, Event.isDoMknod, Event.isFindContainer,
            Event.isPread]
      · rw [doMknodRun_events]
        simp [Event.isSend, Event.isInsert, Event.isDoMknod, Event.isFindContainer,
          Event.isPread]

theorem handlerAfterMknod_sends (w : World) (siov : SeccompIovec) (clientFd : Int)
    (c : Container) (pid : Int) (pre : List Event) (m : DoMknodResult)
    (hpre : ∀ ev ∈ pre, ev.isSend = false) (hm : ∀ ev ∈ m.events, ev.isSend = false) :
    ∃ pre1, (∀ ev ∈ pre1, ev.isSend = false) ∧
      handlerAfterMknod w siov clientFd c pid pre m =
        handlerSend w siov clientFd pre1 (handlerAfterMknod w siov clientFd c pid pre m).goErrno := by
  simp only [handlerAfterMknod]
  split_ifs
  · split
    · refine ⟨_, ?_, rfl⟩
      intro ev hev
      simp only [List.mem_append, List.mem_singleton] at hev
      rcases hev with (h | h) | h
      · exact hpre ev h
      · exact hm ev h
      · subst h; rfl
    · refine ⟨_, ?_, rfl⟩
      intro ev hev
      simp only [List.mem_append, List.mem_singleton] at hev
      rcases hev with (h | h) | h
      · exact hpre ev h
      · exact hm ev h
      · subst h; rfl
  · refine ⟨_, ?_, rfl⟩
    intro ev hev
    simp only [List.mem_append] at hev
    rcases hev with h | h
    · exact hpre ev h
    · exact hm ev h

theorem Handler_sends (w : World) (clientFd : Int) (siov : SeccompIovec) :
    ∃ pre, (∀ ev ∈ pre, ev.isSend = false) ∧
      Handler w clientFd siov =
        handlerSend w
          { siov with
            resp := (handlerDecode w siov).resp }
          clientFd pre (Handler w clientFd siov).goErrno := by
  have hr : ∀ ev ∈ (handlerDecode w siov).events,
      ev.isSend = false := by
    intro ev hev
    have := setResponseLoop_events _ _ _ _ _ _ ev hev
    cases ev <;> simp_all [Event.isPread, Event.isSend]
  simp only [Handler]
  split_ifs with h0
  · split
    · refine ⟨_, ?_, rfl⟩
      intro ev hev
      simp only [List.mem_append, List.mem_singleton] at hev
      rcases hev with h | h
      · exact hr ev h
      · subst h; rfl
    · split
      · refine ⟨_, ?_, rfl⟩
        intro ev hev
        simp only [List.mem_append, List.mem_singleton] at hev
        rcases hev with (h | h) | h
        · exact hr ev h
        · subst h; rfl
        · subst h; rfl
      · split_ifs
        · apply handlerAfterMknod_sends
          · intro ev hev
            simp only [List.mem_append, List.mem_singleton] at hev
            rcases hev with ((h | h) | h) | h
            · exact hr ev h
            · subst h; rfl
            · subst h; rfl
            · subst h; rfl
          · intro ev hev
            exact (doMknod_events _ _ _ _ _ ev hev).1
        · apply handlerAfterMknod_sends
          · intro ev hev
            simp only [List.mem_append, List.mem_singleton] at hev
            rcases hev with ((h | h) | h) | h
            · exact hr ev h
            · subst h; rfl
            · subst h; rfl
            · subst h; rfl
          · intro ev hev
            exact (doMknod_events _ _ _ _ _ ev hev).1
  · exact ⟨_, hr, rfl⟩

theorem takeWhile_nonzero_append (s t : List Nat) (hs : ∀ b ∈ s, b ≠ 0) :
    (s ++ 0 :: t).takeWhile (fun b => b ≠ 0) = s := by
  induction s with
  | nil => simp
  | cons a s ih =>
    have ha : a ≠ 0 := hs a (List.mem_cons_self a s)
    have := ih (fun b hb => hs b (List.mem_cons_of_mem a hb))
    rw [List.cons_append, List.takeWhile_cons, this]
    simp [ha]

theorem take_string_nul (size : Nat) (s rest : List Nat) (hlen : s.length < size) :
    (s ++ 0 :: rest).take size = s ++ 0 :: rest.take (size - s.length - 1) := by
  induction s generalizing size with
  | nil =>
    cases size with
    | zero => simp at hlen
    | succ n => simp
  | cons a s ih =>
    cases size with
    | zero => simp at hlen
    | succ n =>
      simp only [List.length_cons, Nat.add_lt_add_iff_right] at hlen
      simp only [List.cons_append, List.take_succ_cons, List.length_cons, Nat.add_sub_add_right]
      rw [ih n hlen]

theorem GoString_fillBuf (size : Nat) (s rest : List Nat) (hs : ∀ b ∈ s, b ≠ 0)
    (hlen : s.length < size) :
    GoString (fillBuf size (s ++ 0 :: rest)) = String.mk (s.map Char.ofNat) := by
  unfold GoString fillBuf
  rw [take_string_nul size s rest hlen]
  rw [List.append_assoc, List.cons_append, takeWhile_nonzero_append s _ hs]

theorem decodeMknod_ok (w : World) (fd_mem : Int) (req : seccomp_notif)
    (resp : seccomp_notif_resp) (size pathArg modeArg devArg : Nat) (bytes : List Nat)
    (hdev : device_allowed devArg (toModeT modeArg) = 0)
    (hread : w.pread fd_mem size pathArg = PreadResult.data bytes) :
    decodeMknod w fd_mem req resp size pathArg modeArg devArg =
      ⟨0, { resp with error := device_allowed devArg (toModeT modeArg) }, fillBuf size bytes,
        toModeT modeArg, devArg, toCInt req.pid, [Event.pread fd_mem size pathArg]⟩ := by
  simp [decodeMknod, hdev, hread]

theorem toModeT_of_lt (x : Nat) (h : x < 2 ^ 32) : toModeT x = x := by
  unfold toModeT
  exact Nat.mod_eq_of_lt h

theorem Atoi_range (s : String) (n : Int) (h : Atoi s = some n) :
    -(2 ^ 63) ≤ n ∧ n ≤ 2 ^ 63 - 1 := by
  simp only [Atoi] at h
  split_ifs at h
  all_goals
    simp only [Option.some.injEq] at h
    subst h
    omega

theorem toGoInt_of_range (x : Int) (h1 : -(2 ^ 63) ≤ x) (h2 : x < 2 ^ 63) : toGoInt x = x := by
  unfold toGoInt wrapSigned
  norm_num
  rw [Int.emod_eq_of_lt] <;> omega

theorem doMknodRun_ret (w : World) (dev : Device) (uid gid : Int) (permissionsOnly : Bool)
    (pre : List Event) :
    ((w.RunCommandSplit w.execPath (helperArgs dev uid gid permissionsOnly)).err = false →
      (doMknodRun w dev uid gid permissionsOnly pre).ret = 0) ∧
    ((w.RunCommandSplit w.execPath (helperArgs dev uid gid permissionsOnly)).err = true →
      (Atoi (w.RunCommandSplit w.execPath (helperArgs dev uid gid permissionsOnly)).stderr = none →
        (doMknodRun w dev uid gid permissionsOnly pre).ret = -EPERM) ∧
      (∀ n, Atoi (w.RunCommandSplit w.execPath (helperArgs dev uid gid permissionsOnly)).stderr
          = some n →
        (n = ENOANO → (doMknodRun w dev uid gid permissionsOnly pre).ret = -EPERM) ∧
        (n ≠ ENOANO → (doMknodRun w dev uid gid permissionsOnly pre).ret = toGoInt (-n) ∧
          (n ≠ -(2 ^ 63) → (doMknodRun w dev uid gid permissionsOnly pre).ret = -n)))) := by
  constructor
  · intro herr
    simp [doMknodRun, herr]
  · intro herr
    constructor
    · intro hnone
      simp [doMknodRun, herr, hnone]
    · intro n hn
      constructor
      · intro he
        simp [doMknodRun, herr, hn, he]
      · intro hne
        have hret : (doMknodRun w dev uid gid permissionsOnly pre).ret = toGoInt (-n) := by
          simp [doMknodRun, herr, hn, hne]
        refine ⟨hret, fun hmin => ?_⟩
        rw [hret]
        have hr := Atoi_range _ n hn
        apply toGoInt_of_range <;> omega

theorem filter_isDoMknod_decode (w : World) (siov : SeccompIovec) :
    (handlerDecode w siov).events.filter Event.isDoMknod = [] ∧
    (handlerDecode w siov).events.filter Event.isInsert = [] ∧
    (handlerDecode w siov).events.filter Event.isHelper = [] := by
  have hev := setResponseLoop_events w siov.memFd siov.req ⟨siov.req.id, 0, 0, siov.req.flags⟩
    PathMax seccomp_notify_syscall_table
  refine ⟨?_, ?_, ?_⟩
  · rw [List.filter_eq_nil_iff]
    intro ev hev1
    have := hev ev hev1
    cases ev <;> simp_all [Event.isPread, Event.isDoMknod]
  · rw [List.filter_eq_nil_iff]
    intro ev hev1
    have := hev ev hev1
    cases ev <;> simp_all [Event.isPread, Event.isInsert]
  · rw [List.filter_eq_nil_iff]
    intro ev hev1
    have := hev ev hev1
    cases ev <;> simp_all [Event.isPread, Event.isHelper]

theorem filter_doMknod_events (w : World) (c : Container) (dev : Device) (requestPID : Int)
    (permissionsOnly : Bool) :
    (doMknod w c dev requestPID permissionsOnly).events.filter Event.isDoMknod = [] ∧
    (doMknod w c dev requestPID permissionsOnly).events.filter Event.isInsert = [] := by
  constructor
  · rw [List.filter_eq_nil_iff]
    intro ev hev
    simp [(doMknod_events w c dev requestPID permissionsOnly ev hev).2.2.1]
  · rw [List.filter_eq_nil_iff]
    intro ev hev
    simp [(doMknod_events w c dev requestPID permissionsOnly ev hev).2.1]

theorem Handler_of_container (w : World) (clientFd : Int) (siov : SeccompIovec) (c : Container)
    (diskIdmap : Option String) (hdec : (handlerDecode w siov).ret = 0)
    (hc : w.findContainerForPid (toInt32 siov.msg.monitor_pid) = some c)
    (hd : c.DiskIdmap = Except.ok diskIdmap) :
    Handler w clientFd siov =
      handlerAfterMknod w { siov with resp := (handlerDecode w siov).resp } clientFd c
        (handlerDecode w siov).pid
        ((handlerDecode w siov).events ++
          [Event.findContainerForPid (toInt32 siov.msg.monitor_pid)] ++ [Event.DiskIdmap c.Name] ++
          [Event.doMknod (handlerDecode w siov).pid
            (w.Shiftfs && !c.IsPrivileged && diskIdmap.isNone)])
        (doMknod w c (handlerDevice (handlerDecode w siov)) (handlerDecode w siov).pid
          (w.Shiftfs && !c.IsPrivileged && diskIdmap.isNone)) := by
  simp only [Handler, hdec, hc, hd, if_true]
  by_cases hb : (w.Shiftfs && !c.IsPrivileged && diskIdmap.isNone) = true
  · rw [if_pos hb, hb]
  · rw [if_neg hb]
    have hb2 : (w.Shiftfs && !c.IsPrivileged && diskIdmap.isNone) = false :=
      Bool.eq_false_iff.mpr hb
    rw [hb2]

/-! ## Validation -/

/-- Claim C1. `IsValidSeccompIovec` accepts a received record exactly when the received byte
count is at least `SECCOMP_MSG_SIZE_MIN`, the reserved field of the proxy header is zero and
each of the three embedded sizes equals the probed kernel size in `expected_sizes`; it
returns false for every other record. -/
theorem IsValidSeccompIovec_iff (w : World) (siov : SeccompIovec) (size : Nat) :
    (IsValidSeccompIovec w siov size = true ↔
      (SECCOMP_MSG_SIZE_MIN ≤ size ∧ siov.msg.__reserved = 0 ∧
        siov.msg.sizes.seccomp_notif = w.expected_sizes.seccomp_notif ∧
        siov.msg.sizes.seccomp_notif_resp = w.expected_sizes.seccomp_notif_resp ∧
        siov.msg.sizes.seccomp_data = w.expected_sizes.seccomp_data)) ∧
    (IsValidSeccompIovec w siov size = false ↔
      ¬ (SECCOMP_MSG_SIZE_MIN ≤ size ∧ siov.msg.__reserved = 0 ∧
        siov.msg.sizes.seccomp_notif = w.expected_sizes.seccomp_notif ∧
        siov.msg.sizes.seccomp_notif_resp = w.expected_sizes.seccomp_notif_resp ∧
        siov.msg.sizes.seccomp_data = w.expected_sizes.seccomp_data)) := by
  have key : IsValidSeccompIovec w siov size = true ↔
      (SECCOMP_MSG_SIZE_MIN ≤ size ∧ siov.msg.__reserved = 0 ∧
        siov.msg.sizes.seccomp_notif = w.expected_sizes.seccomp_notif ∧
        siov.msg.sizes.seccomp_notif_resp = w.expected_sizes.seccomp_notif_resp ∧
        siov.msg.sizes.seccomp_data = w.expected_sizes.seccomp_data) := by
    unfold IsValidSeccompIovec
    by_cases h1 : size < SECCOMP_MSG_SIZE_MIN
    · simp [h1]
    · by_cases h2 : siov.msg.__reserved = 0 <;>
        by_cases h3 : siov.msg.sizes.seccomp_notif = w.expected_sizes.seccomp_notif <;>
        by_cases h4 : siov.msg.sizes.seccomp_notif_resp = w.expected_sizes.seccomp_notif_resp <;>
        by_cases h5 : siov.msg.sizes.seccomp_data = w.expected_sizes.seccomp_data <;>
        simp [h1, h2, h3, h4, h5]
      all_goals omega
  refine ⟨key, ?_⟩
  rw [← key]
  cases IsValidSeccompIovec w siov size <;> simp

/-! ## The unknown container -/

/-- Claim C2, what the code does. For a notification that decodes (the decode returns 0) and
whose monitor pid resolves to no container, `Handler` does not call `doMknod` or the helper,
and the response it sends carries error 0, not `-EPERM`. -/
theorem Handler_unknown_container (w : World) (clientFd : Int) (siov : SeccompIovec)
    (hdec : (handlerDecode w siov).ret = 0)
    (hc : w.findContainerForPid (toInt32 siov.msg.monitor_pid) = none) :
    (Handler w clientFd siov).resp.error = 0 ∧
    (Handler w clientFd siov).events =
      (handlerDecode w siov).events ++
        [Event.findContainerForPid (toInt32 siov.msg.monitor_pid),
          Event.sendmsg clientFd ⟨siov.req.id, 0, 0, siov.req.flags⟩] ∧
    (Handler w clientFd siov).events.filter Event.isHelper = [] := by
  have hresp := setResponseLoop_resp w siov.memFd siov.req ⟨siov.req.id, 0, 0, siov.req.flags⟩
    PathMax seccomp_notify_syscall_table
  have hev := setResponseLoop_events w siov.memFd siov.req ⟨siov.req.id, 0, 0, siov.req.flags⟩
    PathMax seccomp_notify_syscall_table
  have hH : Handler w clientFd siov =
      handlerSend w { siov with resp := (handlerDecode w siov).resp } clientFd
        ((handlerDecode w siov).events ++
          [Event.findContainerForPid (toInt32 siov.msg.monitor_pid)]) 0 := by
    simp only [Handler, hdec, hc, if_true]
  have hE : (Handler w clientFd siov).events =
      (handlerDecode w siov).events ++
        [Event.findContainerForPid (toInt32 siov.msg.monitor_pid),
          Event.sendmsg clientFd ⟨siov.req.id, 0, 0, siov.req.flags⟩] := by
    rw [hH, (handlerSend_resp _ _ _ _ _).2.2, toCInt_zero]
    simp only [handlerDecode, seccomp_notify_mknod_set_response]
    rw [hresp.1, hresp.2.1, hresp.2.2]
    simp
  refine ⟨?_, hE, ?_⟩
  · rw [hH, (handlerSend_resp _ _ _ _ _).1, toCInt_zero]
  · rw [hE, List.filter_append]
    have : List.filter Event.isHelper (handlerDecode w siov).events = [] := by
      rw [List.filter_eq_nil_iff]
      intro ev hev1
      have := hev ev hev1
      cases ev <;> simp_all [Event.isPread, Event.isHelper]
    rw [this]
    rfl

/-- The x86_64 `mknod` of /dev/null from a monitor pid that belongs to no container: the
request decodes, no container is found, and the response carries error 0. -/
theorem Handler_unknown_container_witness :
    (handlerDecode (sampleWorld none ⟨"", "", false⟩)
      (sampleIovec AUDIT_ARCH_X86_64 133 [4096, 0x21B6, makedev 1 3])).ret = 0 ∧
    (Handler (sampleWorld none ⟨"", "", false⟩) 3
      (sampleIovec AUDIT_ARCH_X86_64 133 [4096, 0x21B6, makedev 1 3])).resp.error = 0 ∧
    (Handler (sampleWorld none ⟨"", "", false⟩) 3
      (sampleIovec AUDIT_ARCH_X86_64 133 [4096, 0x21B6, makedev 1 3])).events.filter
        Event.isHelper = [] :=
  ⟨by decide,
    (Handler_unknown_container (sampleWorld none ⟨"", "", false⟩) 3
      (sampleIovec AUDIT_ARCH_X86_64 133 [4096, 0x21B6, makedev 1 3]) (by decide) rfl).1,
    (Handler_unknown_container (sampleWorld none ⟨"", "", false⟩) 3
      (sampleIovec AUDIT_ARCH_X86_64 133 [4096, 0x21B6, makedev 1 3]) (by decide) rfl).2.2⟩

/-! ## The response -/

/-- Claim C3, as the code has it. On every branch `Handler` sends exactly one response, as
its last step; that response has the id and the flags of the request, `val` 0, and as its
error the value `Handler` computed for the branch converted to the 32-bit C `int` of the
response field, which is that value itself whenever it fits in 32 bits. When the decode
fails, the value computed is the return value of the decode. -/
theorem Handler_response (w : World) (clientFd : Int) (siov : SeccompIovec) :
    (Handler w clientFd siov).resp =
      ⟨siov.req.id, 0, toCInt (Handler w clientFd siov).goErrno, siov.req.flags⟩ ∧
    (∃ pre, (∀ ev ∈ pre, ev.isSend = false) ∧
      (Handler w clientFd siov).events =
        pre ++ [Event.sendmsg clientFd (Handler w clientFd siov).resp]) ∧
    (-(2 ^ 31) ≤ (Handler w clientFd siov).goErrno → (Handler w clientFd siov).goErrno < 2 ^ 31 →
      (Handler w clientFd siov).resp.error = (Handler w clientFd siov).goErrno) ∧
    ((handlerDecode w siov).ret ≠ 0 →
      (Handler w clientFd siov).goErrno = (handlerDecode w siov).ret) := by
  obtain ⟨pre, hpre, hH⟩ := Handler_sends w clientFd siov
  have hresp := setResponseLoop_resp w siov.memFd siov.req ⟨siov.req.id, 0, 0, siov.req.flags⟩
    PathMax seccomp_notify_syscall_table
  have h1 : (Handler w clientFd siov).resp =
      ⟨siov.req.id, 0, toCInt (Handler w clientFd siov).goErrno, siov.req.flags⟩ := by
    conv_lhs => rw [hH]
    rw [(handlerSend_resp _ _ _ _ _).1]
    simp only [handlerDecode, seccomp_notify_mknod_set_response]
    rw [hresp.1, hresp.2.1, hresp.2.2]
  refine ⟨h1, ⟨pre, hpre, ?_⟩, ?_, ?_⟩
  · conv_lhs => rw [hH]
    rw [(handlerSend_resp _ _ _ _ _).2.2, h1]
    simp only [handlerDecode, seccomp_notify_mknod_set_response]
    rw [hresp.1, hresp.2.1, hresp.2.2]
  · intro hlo hhi
    rw [h1]
    exact toCInt_of_range _ hlo hhi
  · intro hne
    rw [Handler_of_ret_ne_zero w clientFd siov hne]
    exact (handlerSend_resp _ _ _ _ _).2.1

/-- The x86_64 `mknod` of /dev/null with a helper that succeeds: the response is
id 7, val 0, error 0, flags 3. -/
theorem Handler_response_witness :
    (Handler (sampleWorld (some (sampleContainer false)) ⟨"", "", false⟩) 3
      (sampleIovec AUDIT_ARCH_X86_64 133 [4096, 0x21B6, makedev 1 3])).resp = ⟨7, 0, 0, 3⟩ :=
  (Handler_response (sampleWorld (some (sampleContainer false)) ⟨"", "", false⟩) 3
    (sampleIovec AUDIT_ARCH_X86_64 133 [4096, 0x21B6, makedev 1 3])).1.trans (by decide)

/-- Claim C3 fails as stated when the helper fails with a number beyond 32 bits on its
stderr: `Handler` computes -4294967296 for the branch and the response carries error 0. -/
theorem Handler_response_truncated :
    (Handler (sampleWorld (some (sampleContainer false)) ⟨"", "4294967296", true⟩) 3
      (sampleIovec AUDIT_ARCH_X86_64 133 [4096, 0x21B6, makedev 1 3])).goErrno = -4294967296 ∧
    (Handler (sampleWorld (some (sampleContainer false)) ⟨"", "4294967296", true⟩) 3
      (sampleIovec AUDIT_ARCH_X86_64 133 [4096, 0x21B6, makedev 1 3])).resp.error = 0 := by
  decide

/-! ## The device whitelist -/

/-- Claim C4. `device_allowed dev mode` is 0 exactly when `mode` has the `S_IFCHR` bit set
and `dev` is `makedev major minor` for one of the eight pairs (0,0), (5,1), (1,7), (1,3),
(1,8), (5,0), (1,9), (1,5); in every other case it is `-EPERM`. -/
theorem device_allowed_iff (dev mode : Nat) :
    (device_allowed dev mode = 0 ↔
      (mode &&& S_IFCHR ≠ 0 ∧
        ∃ p ∈ [(0, 0), (5, 1), (1, 7), (1, 3), (1, 8), (5, 0), (1, 9), (1, 5)],
          dev = makedev p.1 p.2)) ∧
    (device_allowed dev mode = 0 ∨ device_allowed dev mode = -EPERM) := by
  unfold device_allowed
  by_cases hm : mode &&& S_IFCHR = 0
  · simp [hm, EPERM]
  · simp only [hm, ne_eq, not_false_eq_true, and_true]
    constructor
    · simp only [List.mem_cons, List.mem_singleton, exists_eq_or_imp, exists_eq_left, true_and,
        List.not_mem_nil, exists_false, or_false, false_and]
      constructor
      · intro h
        split_ifs at h with h1 h2 h3 h4 h5 h6 h7 h8
        all_goals first | (simp [*]; done) | (exfalso; revert h; simp [EPERM])
      · intro h
        rcases h with h | h | h | h | h | h | h | h <;> simp [h]
    · split_ifs <;> simp

/-! ## Rejections before the container is looked up -/

/-- Claim C5. For a request whose arch has a row `e` of the syscall table and whose `nr` is
the mknod number of that row, or its mknodat number with the dirfd `(int)args[0]` equal to
`AT_FDCWD`: if `device_allowed` rejects the requested device and mode, then
`seccomp_notify_mknod_set_response` returns `-EPERM` without reading the peer memory, and
`Handler` sends a response with error `-EPERM` and does nothing else: no container lookup,
no helper. -/
theorem rejected_device_eperm (w : World) (clientFd : Int) (siov : SeccompIovec) (size : Nat)
    (e : lxd_seccomp_data_arch) (he : e ∈ seccomp_notify_syscall_table)
    (ha : e.arch = siov.req.data.arch)
    (h : (siov.req.data.nr = e.nr_mknod ∧
        device_allowed (siov.req.data.args 2) (toModeT (siov.req.data.args 1)) ≠ 0) ∨
      (siov.req.data.nr = e.nr_mknodat ∧ toCInt (siov.req.data.args 0) = AT_FDCWD ∧
        device_allowed (siov.req.data.args 3) (toModeT (siov.req.data.args 2)) ≠ 0)) :
    (seccomp_notify_mknod_set_response w siov.memFd siov.req size).ret = -EPERM ∧
    (seccomp_notify_mknod_set_response w siov.memFd siov.req size).events = [] ∧
    (Handler w clientFd siov).resp.error = -EPERM ∧
    (Handler w clientFd siov).events =
      [Event.sendmsg clientFd ⟨siov.req.id, 0, -EPERM, siov.req.flags⟩] := by
  have hs : ∀ sz, ∃ err, seccomp_notify_mknod_set_response w siov.memFd siov.req sz =
      ⟨-EPERM, ⟨siov.req.id, 0, err, siov.req.flags⟩, List.replicate sz 0, 0, 0, 0, []⟩ := by
    intro sz
    rw [set_response_row w siov.memFd siov.req sz e he ha]
    rcases h with ⟨hnr, hdev⟩ | ⟨hnr, hfd, hdev⟩
    · refine ⟨device_allowed (siov.req.data.args 2) (toModeT (siov.req.data.args 1)), ?_⟩
      simp only [setResponseLoop, ha, hnr, ne_eq, not_true_eq_false, if_false, if_true]
      rw [decodeMknod_rejected _ _ _ _ _ _ _ _ hdev]
    · have hne : e.nr_mknod ≠ siov.req.data.nr := by
        rw [hnr]
        exact table_nr_ne e he
      refine ⟨device_allowed (siov.req.data.args 3) (toModeT (siov.req.data.args 2)), ?_⟩
      simp only [setResponseLoop, ha, hnr, hfd, ne_eq, not_true_eq_false, if_false, if_true]
      rw [if_neg (by rw [← hnr]; exact hne)]
      rw [decodeMknod_rejected _ _ _ _ _ _ _ _ hdev]
  obtain ⟨err1, h1⟩ := hs size
  obtain ⟨err2, h2⟩ := hs PathMax
  have hne : (handlerDecode w siov).ret ≠ 0 := by
    simp [handlerDecode, h2, EPERM]
  rw [Handler_of_ret_ne_zero w clientFd siov hne]
  simp only [handlerDecode, h1, h2, handlerSend_resp, toCInt_neg_EPERM]
  simp

/-- The x86_64 `mknod` of the device (10, 200), which is not on the whitelist, and the
x86_64 `mknodat` (number 259) of the same device with the dirfd `AT_FDCWD`. -/
theorem rejected_device_eperm_witness :
    device_allowed (makedev 10 200) (toModeT 0x21B6) ≠ 0 ∧
    (Handler (sampleWorld (some (sampleContainer false)) ⟨"", "", false⟩) 3
      (sampleIovec AUDIT_ARCH_X86_64 133 [4096, 0x21B6, makedev 10 200])).events =
      [Event.sendmsg 3 ⟨7, 0, -EPERM, 3⟩] ∧
    toCInt ((sampleIovec AUDIT_ARCH_X86_64 259
      [0xFFFFFFFFFFFFFF9C, 4096, 0x21B6, makedev 10 200]).req.data.args 0) = AT_FDCWD ∧
    (Handler (sampleWorld (some (sampleContainer false)) ⟨"", "", false⟩) 3
      (sampleIovec AUDIT_ARCH_X86_64 259
        [0xFFFFFFFFFFFFFF9C, 4096, 0x21B6, makedev 10 200])).events =
      [Event.sendmsg 3 ⟨7, 0, -EPERM, 3⟩] :=
  ⟨by decide,
    (rejected_device_eperm (sampleWorld (some (sampleContainer false)) ⟨"", "", false⟩) 3
      (sampleIovec AUDIT_ARCH_X86_64 133 [4096, 0x21B6, makedev 10 200]) PathMax
      ⟨AUDIT_ARCH_X86_64, 133, 259⟩ (by decide) rfl (Or.inl ⟨rfl, by decide⟩)).2.2.2,
    by decide,
    (rejected_device_eperm (sampleWorld (some (sampleContainer false)) ⟨"", "", false⟩) 3
      (sampleIovec AUDIT_ARCH_X86_64 259 [0xFFFFFFFFFFFFFF9C, 4096, 0x21B6, makedev 10 200])
      PathMax ⟨AUDIT_ARCH_X86_64, 133, 259⟩ (by decide) rfl
      (Or.inr ⟨rfl, by decide, by decide⟩)).2.2.2⟩

/-- Claim C6. For a request whose arch has a row `e` of the syscall table and whose `nr` is
the mknodat number of that row: if the dirfd `(int)args[0]` is not `AT_FDCWD`, the response
error is `-EINVAL` whatever the device and mode arguments are, and neither the peer memory
is read nor the helper invoked. -/
theorem bad_dirfd_einval (w : World) (clientFd : Int) (siov : SeccompIovec) (size : Nat)
    (e : lxd_seccomp_data_arch) (he : e ∈ seccomp_notify_syscall_table)
    (ha : e.arch = siov.req.data.arch) (hnr : siov.req.data.nr = e.nr_mknodat)
    (hfd : toCInt (siov.req.data.args 0) ≠ AT_FDCWD) :
    (seccomp_notify_mknod_set_response w siov.memFd siov.req size).ret = -EINVAL ∧
    (seccomp_notify_mknod_set_response w siov.memFd siov.req size).events = [] ∧
    (Handler w clientFd siov).resp.error = -EINVAL ∧
    (Handler w clientFd siov).events =
      [Event.sendmsg clientFd ⟨siov.req.id, 0, -EINVAL, siov.req.flags⟩] := by
  have hs : ∀ sz, seccomp_notify_mknod_set_response w siov.memFd siov.req sz =
      ⟨-EINVAL, ⟨siov.req.id, 0, 0, siov.req.flags⟩, List.replicate sz 0, 0, 0, 0, []⟩ := by
    intro sz
    rw [set_response_row w siov.memFd siov.req sz e he ha]
    have hne : e.nr_mknod ≠ siov.req.data.nr := by
      rw [hnr]
      exact table_nr_ne e he
    simp only [setResponseLoop, ha, hnr, hfd, ne_eq, not_true_eq_false, not_false_eq_true,
      if_false, if_true]
    rw [if_neg (by rw [← hnr]; exact hne)]
  have hne : (handlerDecode w siov).ret ≠ 0 := by
    simp [handlerDecode, hs, EINVAL]
  rw [Handler_of_ret_ne_zero w clientFd siov hne]
  simp only [handlerDecode, hs, handlerSend_resp, toCInt_neg_EINVAL]
  simp

/-- The aarch64 `mknodat` (number 33) with dirfd 5, for a device that is on the whitelist. -/
theorem bad_dirfd_einval_witness :
    toCInt ((sampleIovec AUDIT_ARCH_AARCH64 33 [5, 4096, 0x21B6, makedev 1 3]).req.data.args 0)
      ≠ AT_FDCWD ∧
    (Handler (sampleWorld (some (sampleContainer false)) ⟨"", "", false⟩) 3
      (sampleIovec AUDIT_ARCH_AARCH64 33 [5, 4096, 0x21B6, makedev 1 3])).events =
      [Event.sendmsg 3 ⟨7, 0, -EINVAL, 3⟩] :=
  ⟨by decide,
    (bad_dirfd_einval (sampleWorld (some (sampleContainer false)) ⟨"", "", false⟩) 3
      (sampleIovec AUDIT_ARCH_AARCH64 33 [5, 4096, 0x21B6, makedev 1 3]) PathMax
      ⟨AUDIT_ARCH_AARCH64, -1, 33⟩ (by decide) rfl rfl (by decide)).2.2.2⟩

/-- Claim C7. When `(arch, nr)` is not matched by the syscall table (no row has the arch, or
the row of the arch has neither `nr` as its mknod nor as its mknodat number),
`seccomp_notify_mknod_set_response` returns `-EPERM` without reading the peer memory, and
`Handler` sends a response with error `-EPERM` and does nothing else: no read, no container
lookup, no helper. -/
theorem table_miss_eperm (w : World) (clientFd : Int) (siov : SeccompIovec) (size : Nat)
    (h : ∀ e ∈ seccomp_notify_syscall_table, e.arch = siov.req.data.arch →
      e.nr_mknod ≠ siov.req.data.nr ∧ e.nr_mknodat ≠ siov.req.data.nr) :
    (seccomp_notify_mknod_set_response w siov.memFd siov.req size).ret = -EPERM ∧
    (seccomp_notify_mknod_set_response w siov.memFd siov.req size).events = [] ∧
    (Handler w clientFd siov).resp.error = -EPERM ∧
    (Handler w clientFd siov).events =
      [Event.sendmsg clientFd ⟨siov.req.id, 0, -EPERM, siov.req.flags⟩] := by
  have hs : ∀ sz, seccomp_notify_mknod_set_response w siov.memFd siov.req sz =
      ⟨-EPERM, ⟨siov.req.id, 0, 0, siov.req.flags⟩, List.replicate sz 0, 0, 0, 0, []⟩ :=
    fun sz => setResponseLoop_miss w siov.memFd siov.req _ sz _ h
  have hne : (handlerDecode w siov).ret ≠ 0 := by
    simp [handlerDecode, hs, EPERM]
  rw [Handler_of_ret_ne_zero w clientFd siov hne]
  simp only [handlerDecode, hs, handlerSend_resp, toCInt_neg_EPERM]
  simp

/-- A request for an architecture without a row, and one for a syscall number that the
x86_64 row does not hold. -/
theorem table_miss_eperm_witness :
    (∀ e ∈ seccomp_notify_syscall_table,
      e.arch = (sampleIovec 77 133 [4096, 0x21B6, makedev 1 3]).req.data.arch →
        e.nr_mknod ≠ (sampleIovec 77 133 [4096, 0x21B6, makedev 1 3]).req.data.nr ∧
        e.nr_mknodat ≠ (sampleIovec 77 133 [4096, 0x21B6, makedev 1 3]).req.data.nr) ∧
    (Handler (sampleWorld (some (sampleContainer false)) ⟨"", "", false⟩) 3
      (sampleIovec 77 133 [4096, 0x21B6, makedev 1 3])).resp.error = -EPERM ∧
    (Handler (sampleWorld (some (sampleContainer false)) ⟨"", "", false⟩) 3
      (sampleIovec AUDIT_ARCH_X86_64 2 [4096, 0x21B6, makedev 1 3])).events =
      [Event.sendmsg 3 ⟨7, 0, -EPERM, 3⟩] :=
  ⟨by decide,
    (table_miss_eperm (sampleWorld (some (sampleContainer false)) ⟨"", "", false⟩) 3
      (sampleIovec 77 133 [4096, 0x21B6, makedev 1 3]) PathMax (by decide)).2.2.1,
    (table_miss_eperm (sampleWorld (some (sampleContainer false)) ⟨"", "", false⟩) 3
      (sampleIovec AUDIT_ARCH_X86_64 2 [4096, 0x21B6, makedev 1 3]) PathMax (by decide)).2.2.2⟩

/-! ## The decode -/

/-- Claim C8, as the code has it. For a request whose arch has a row `e` of the syscall
table, when the read of the peer memory returns bytes that begin with a string `s` without
NUL, shorter than the buffer, followed by a NUL: if `nr` is the mknod number of the row and
the device `args[2]` with the mode `args[1]` is allowed, the decode returns 0 after one read
at offset `args[0]`, with mode `args[1]` converted to `mode_t` (its low 32 bits, so `args[1]`
itself when it is below 2^32), dev `args[2]`, pid `req.pid` as a `pid_t` and the path `s`;
if `nr` is the mknodat number with the dirfd `(int)args[0]` equal to `AT_FDCWD`, the same
with the path at `args[1]`, the mode `args[2]` and the dev `args[3]`. -/
theorem decode_success (w : World) (fd_mem : Int) (req : seccomp_notif) (size : Nat)
    (e : lxd_seccomp_data_arch) (he : e ∈ seccomp_notify_syscall_table)
    (ha : e.arch = req.data.arch) (s rest : List Nat) (hs : ∀ b ∈ s, b ≠ 0)
    (hlen : s.length < size) :
    (req.data.nr = e.nr_mknod →
      device_allowed (req.data.args 2) (toModeT (req.data.args 1)) = 0 →
      w.pread fd_mem size (req.data.args 0) = PreadResult.data (s ++ 0 :: rest) →
      (seccomp_notify_mknod_set_response w fd_mem req size).ret = 0 ∧
      (seccomp_notify_mknod_set_response w fd_mem req size).events =
        [Event.pread fd_mem size (req.data.args 0)] ∧
      (seccomp_notify_mknod_set_response w fd_mem req size).mode = toModeT (req.data.args 1) ∧
      (req.data.args 1 < 2 ^ 32 →
        (seccomp_notify_mknod_set_response w fd_mem req size).mode = req.data.args 1) ∧
      (seccomp_notify_mknod_set_response w fd_mem req size).dev = req.data.args 2 ∧
      (seccomp_notify_mknod_set_response w fd_mem req size).pid = toCInt req.pid ∧
      (req.pid < 2 ^ 31 →
        (seccomp_notify_mknod_set_response w fd_mem req size).pid = req.pid) ∧
      GoString (seccomp_notify_mknod_set_response w fd_mem req size).buf =
        String.mk (s.map Char.ofNat)) ∧
    (req.data.nr = e.nr_mknodat → toCInt (req.data.args 0) = AT_FDCWD →
      device_allowed (req.data.args 3) (toModeT (req.data.args 2)) = 0 →
      w.pread fd_mem size (req.data.args 1) = PreadResult.data (s ++ 0 :: rest) →
      (seccomp_notify_mknod_set_response w fd_mem req size).ret = 0 ∧
      (seccomp_notify_mknod_set_response w fd_mem req size).events =
        [Event.pread fd_mem size (req.data.args 1)] ∧
      (seccomp_notify_mknod_set_response w fd_mem req size).mode = toModeT (req.data.args 2) ∧
      (req.data.args 2 < 2 ^ 32 →
        (seccomp_notify_mknod_set_response w fd_mem req size).mode = req.data.args 2) ∧
      (seccomp_notify_mknod_set_response w fd_mem req size).dev = req.data.args 3 ∧
      (seccomp_notify_mknod_set_response w fd_mem req size).pid = toCInt req.pid ∧
      (req.pid < 2 ^ 31 →
        (seccomp_notify_mknod_set_response w fd_mem req size).pid = req.pid) ∧
      GoString (seccomp_notify_mknod_set_response w fd_mem req size).buf =
        String.mk (s.map Char.ofNat)) := by
  have hpid : (req.pid < 2 ^ 31 → toCInt (req.pid : Int) = req.pid) := by
    intro h
    apply toCInt_of_range <;> omega
  rw [set_response_row w fd_mem req size e he ha]
  constructor
  · intro hnr hdev hread
    simp only [setResponseLoop, ha, hnr, ne_eq, not_true_eq_false, if_false, if_true]
    rw [decodeMknod_ok _ _ _ _ _ _ _ _ _ hdev hread]
    exact ⟨rfl, rfl, rfl, fun h => toModeT_of_lt _ h, rfl, rfl, hpid,
      GoString_fillBuf size s rest hs hlen⟩
  · intro hnr hfd hdev hread
    have hne : e.nr_mknod ≠ e.nr_mknodat := table_nr_ne e he
    simp only [setResponseLoop, ha, hnr, hfd, hne, ne_eq, not_true_eq_false, if_false, if_true]
    rw [decodeMknod_ok _ _ _ _ _ _ _ _ _ hdev hread]
    exact ⟨rfl, rfl, rfl, fun h => toModeT_of_lt _ h, rfl, rfl, hpid,
      GoString_fillBuf size s rest hs hlen⟩

/-- The x86_64 `mknod` (number 133) with mode 0x21B6 and device (1, 3), the peer memory
holding "/dev/null": the decode returns 0 with that mode, that device, pid 42 and the path
/dev/null, which is the path of the device `Handler` builds. -/
theorem decode_success_witness :
    (seccomp_notify_mknod_set_response (sampleWorld none ⟨"", "", false⟩) 9
      (sampleIovec AUDIT_ARCH_X86_64 133 [4096, 0x21B6, makedev 1 3]).req PathMax).ret = 0 ∧
    (seccomp_notify_mknod_set_response (sampleWorld none ⟨"", "", false⟩) 9
      (sampleIovec AUDIT_ARCH_X86_64 133 [4096, 0x21B6, makedev 1 3]).req PathMax).mode
        = 0x21B6 ∧
    (seccomp_notify_mknod_set_response (sampleWorld none ⟨"", "", false⟩) 9
      (sampleIovec AUDIT_ARCH_X86_64 133 [4096, 0x21B6, makedev 1 3]).req PathMax).dev
        = makedev 1 3 ∧
    (seccomp_notify_mknod_set_response (sampleWorld none ⟨"", "", false⟩) 9
      (sampleIovec AUDIT_ARCH_X86_64 133 [4096, 0x21B6, makedev 1 3]).req PathMax).pid = 42 ∧
    GoString (seccomp_notify_mknod_set_response (sampleWorld none ⟨"", "", false⟩) 9
      (sampleIovec AUDIT_ARCH_X86_64 133 [4096, 0x21B6, makedev 1 3]).req PathMax).buf
        = "/dev/null" ∧
    devGet (handlerDevice (handlerDecode (sampleWorld none ⟨"", "", false⟩)
      (sampleIovec AUDIT_ARCH_X86_64 133 [4096, 0x21B6, makedev 1 3]))) "path" = "/dev/null" :=
  have h := (decode_success (sampleWorld none ⟨"", "", false⟩) 9
    (sampleIovec AUDIT_ARCH_X86_64 133 [4096, 0x21B6, makedev 1 3]).req PathMax
    ⟨AUDIT_ARCH_X86_64, 133, 259⟩ (by decide) rfl [47, 100, 101, 118, 47, 110, 117, 108, 108] []
    (by decide) (by decide)).1 rfl (by decide) rfl
  ⟨h.1, h.2.2.2.1 (by decide), h.2.2.2.2.1, h.2.2.2.2.2.2.1 (by decide), h.2.2.2.2.2.2.2,
    by decide⟩

/-- Claim C8 fails as stated when `args[1]` has a bit above the 32 of a `mode_t`: the x86_64
`mknod` with `args[1]` = 2^32 + 0x21B6 and device (1, 3) is allowed and decodes with
mode 0x21B6, which is not `args[1]`. Likewise a `req.pid` of 2^32 - 1 decodes as the
`pid_t` -1. -/
theorem decode_truncated :
    device_allowed (makedev 1 3) (toModeT 0x1000021B6) = 0 ∧
    (seccomp_notify_mknod_set_response (sampleWorld none ⟨"", "", false⟩) 9
      (sampleIovec AUDIT_ARCH_X86_64 133 [4096, 0x1000021B6, makedev 1 3]).req PathMax).ret = 0 ∧
    (seccomp_notify_mknod_set_response (sampleWorld none ⟨"", "", false⟩) 9
      (sampleIovec AUDIT_ARCH_X86_64 133 [4096, 0x1000021B6, makedev 1 3]).req PathMax).mode
        = 0x21B6 ∧
    (sampleIovec AUDIT_ARCH_X86_64 133 [4096, 0x1000021B6, makedev 1 3]).req.data.args 1
        = 0x1000021B6 ∧
    (seccomp_notify_mknod_set_response (sampleWorld none ⟨"", "", false⟩) 9
      { (sampleIovec AUDIT_ARCH_X86_64 133 [4096, 0x21B6, makedev 1 3]).req with
        pid := 4294967295 } PathMax).ret = 0 ∧
    (seccomp_notify_mknod_set_response (sampleWorld none ⟨"", "", false⟩) 9
      { (sampleIovec AUDIT_ARCH_X86_64 133 [4096, 0x21B6, makedev 1 3]).req with
        pid := 4294967295 } PathMax).pid = -1 := by
  decide

/-! ## The helper's exit -/

/-- Claim C9, as the code has it. Once the reads of /proc have succeeded, `doMknod` runs the
helper once and maps its exit: if the helper succeeds the result is 0; if it fails, the
whole of its stderr is parsed as an integer by `strconv.Atoi`, and the result is `-EPERM`
when that fails or the integer `n` is `ENOANO`, and `-n` in Go's `int` otherwise (which is
the integer `-n` unless `n` is the least `int`). -/
theorem doMknod_exit (w : World) (c : Container) (dev : Device) (requestPID : Int)
    (permissionsOnly : Bool) (rootPath : String) (uid gid : Int)
    (hroot : w.Readlink ("/proc/" ++ fmtD requestPID ++ "/root") = some rootPath)
    (hug : taskUidGid w requestPID = some (uid, gid))
    (hcwd : IsAbs (devGet dev "path") = false →
      (w.Readlink ("/proc/" ++ fmtD requestPID ++ "/cwd")).isSome = true) :
    ∃ args,
      (doMknod w c dev requestPID permissionsOnly).events.filter Event.isHelper =
        [Event.RunCommandSplit w.execPath args] ∧
      ((w.RunCommandSplit w.execPath args).err = false →
        (doMknod w c dev requestPID permissionsOnly).ret = 0) ∧
      ((w.RunCommandSplit w.execPath args).err = true →
        (Atoi (w.RunCommandSplit w.execPath args).stderr = none →
          (doMknod w c dev requestPID permissionsOnly).ret = -EPERM) ∧
        (∀ n, Atoi (w.RunCommandSplit w.execPath args).stderr = some n →
          (n = ENOANO → (doMknod w c dev requestPID permissionsOnly).ret = -EPERM) ∧
          (n ≠ ENOANO →
            (doMknod w c dev requestPID permissionsOnly).ret = toGoInt (-n) ∧
            (n ≠ -(2 ^ 63) → (doMknod w c dev requestPID permissionsOnly).ret = -n)))) := by
  by_cases habs : IsAbs (devGet dev "path") = true
  · have hD : doMknod w c dev requestPID permissionsOnly =
        doMknodRun w (devSet dev "hostpath" (Join [rootPath, devGet dev "path"]))
          uid gid permissionsOnly
          [Event.Readlink ("/proc/" ++ fmtD requestPID ++ "/root"),
            Event.ReadFile ("/proc/" ++ fmtD requestPID ++ "/status")] := by
      simp [doMknod, hroot, hug, habs]
    rw [hD]
    refine ⟨_, ?_, doMknodRun_ret w _ uid gid permissionsOnly _⟩
    rw [doMknodRun_events]
    simp [List.filter, Event.isHelper]
  · have habs2 : IsAbs (devGet dev "path") = false := by simpa using habs
    obtain ⟨cwd, hcwd2⟩ := Option.isSome_iff_exists.mp (hcwd habs2)
    have hD : doMknod w c dev requestPID permissionsOnly =
        doMknodRun w
          (devSet dev "hostpath" (Join [rootPath, TrimPrefix cwd rootPath, devGet dev "path"]))
          uid gid permissionsOnly
          [Event.Readlink ("/proc/" ++ fmtD requestPID ++ "/root"),
            Event.ReadFile ("/proc/" ++ fmtD requestPID ++ "/status"),
            Event.Readlink ("/proc/" ++ fmtD requestPID ++ "/cwd")] := by
      simp [doMknod, hroot, hug, habs2, hcwd2]
    rw [hD]
    refine ⟨_, ?_, doMknodRun_ret w _ uid gid permissionsOnly _⟩
    rw [doMknodRun_events]
    simp [List.filter, Event.isHelper]

/-- A helper that fails with 13 on its stderr: the result is -13. -/
theorem doMknod_exit_witness :
    taskUidGid (sampleWorld none ⟨"", "13", true⟩) 42 = some (1000, 1000) ∧
    (doMknod (sampleWorld none ⟨"", "13", true⟩) (sampleContainer false)
      [("path", "/dev/null")] 42 true).ret = -13 :=
  ⟨by decide,
    (doMknod_exit (sampleWorld none ⟨"", "13", true⟩) (sampleContainer false)
      [("path", "/dev/null")] 42 true "/" 1000 1000 rfl (by decide) (by decide)).elim
      fun _ h =>
        (((h.2.2 rfl).2 13 (show Atoi "13" = some 13 by decide)).2 (by decide)).2 (by decide)⟩

/-- Claim C9 fails as stated when the helper's stderr holds more than one token: for the
stderr "warning 13" the last token is the integer 13, for which the claim gives -13, and
`doMknod` returns `-EPERM`. It also fails for the least `int` on stderr, whose negation in
Go's `int` is itself. -/
theorem doMknod_exit_last_token :
    lastToken "warning 13" = "13" ∧
    specHelperExit true "warning 13" = some (-13) ∧
    (doMknod (sampleWorld none ⟨"", "warning 13", true⟩) (sampleContainer false)
      [("path", "/dev/null")] 42 true).ret = -1 ∧
    specHelperExit true "-9223372036854775808" = some 9223372036854775808 ∧
    (doMknod (sampleWorld none ⟨"", "-9223372036854775808", true⟩) (sampleContainer false)
      [("path", "/dev/null")] 42 true).ret = -9223372036854775808 := by
  decide

/-! ## Materialising the node -/

/-- Claim C10, as the code has it. For a decoded request whose container `c` is found and
whose `DiskIdmap` query succeeds, `Handler` calls `doMknod` exactly once, with
`permissionsOnly` true exactly when shiftfs is available, the container is unprivileged and
it has no disk id-mapping, and the helper runs of `Handler` are those of that call. If
`doMknod` returns `-ENOMEDIUM`, the device is registered once
with `InsertSeccompUnixDevice` and the response error is 0 when that succeeds and `-EPERM`
when it fails. For any other result of `doMknod` nothing is registered and the response
error is that result converted to the 32-bit C `int` of the response field, which is the
result unchanged whenever it fits in 32 bits. -/
theorem Handler_materialise (w : World) (clientFd : Int) (siov : SeccompIovec) (c : Container)
    (diskIdmap : Option String) (permissionsOnly : Bool) (m : DoMknodResult)
    (hdec : (handlerDecode w siov).ret = 0)
    (hc : w.findContainerForPid (toInt32 siov.msg.monitor_pid) = some c)
    (hd : c.DiskIdmap = Except.ok diskIdmap)
    (hp : permissionsOnly = (w.Shiftfs && !c.IsPrivileged && diskIdmap.isNone))
    (hm : m = doMknod w c (handlerDevice (handlerDecode w siov)) (handlerDecode w siov).pid
      permissionsOnly) :
    (Handler w clientFd siov).events.filter Event.isDoMknod =
      [Event.doMknod (handlerDecode w siov).pid permissionsOnly] ∧
    (Handler w clientFd siov).events.filter Event.isHelper = m.events.filter Event.isHelper ∧
    (m.ret = -ENOMEDIUM →
      (Handler w clientFd siov).events.filter Event.isInsert =
        [Event.InsertSeccompUnixDevice ("forkmknod.unix." ++ fmtD (handlerDecode w siov).pid)
          m.dev (handlerDecode w siov).pid] ∧
      (c.InsertSeccompUnixDevice ("forkmknod.unix." ++ fmtD (handlerDecode w siov).pid)
          m.dev (handlerDecode w siov).pid = none →
        (Handler w clientFd siov).resp.error = 0) ∧
      ((c.InsertSeccompUnixDevice ("forkmknod.unix." ++ fmtD (handlerDecode w siov).pid)
          m.dev (handlerDecode w siov).pid).isSome = true →
        (Handler w clientFd siov).resp.error = -EPERM)) ∧
    (m.ret ≠ -ENOMEDIUM →
      (Handler w clientFd siov).events.filter Event.isInsert = [] ∧
      (Handler w clientFd siov).resp.error = toCInt m.ret ∧
      (-(2 ^ 31) ≤ m.ret → m.ret < 2 ^ 31 → (Handler w clientFd siov).resp.error = m.ret)) := by
  subst hp
  rw [Handler_of_container w clientFd siov c diskIdmap hdec hc hd, ← hm]
  have hf1 := filter_isDoMknod_decode w siov
  have hf2 := filter_doMknod_events w c (handlerDevice (handlerDecode w siov))
    (handlerDecode w siov).pid (w.Shiftfs && !c.IsPrivileged && diskIdmap.isNone)
  rw [← hm] at hf2
  refine ⟨?_, ?_, ?_, ?_⟩
  · simp only [handlerAfterMknod]
    split_ifs
    · split <;>
        simp [handlerSend_resp, List.filter_append, hf1.1, hf2.1, List.filter, Event.isDoMknod]
    · simp [handlerSend_resp, List.filter_append, hf1.1, hf2.1, List.filter, Event.isDoMknod]
  · simp only [handlerAfterMknod]
    split_ifs
    · split <;>
        simp [handlerSend_resp, List.filter_append, hf1.2.2, List.filter, Event.isHelper]
    · simp [handlerSend_resp, List.filter_append, hf1.2.2, List.filter, Event.isHelper]
  · intro hret
    simp only [handlerAfterMknod, hret, if_true]
    refine ⟨?_, ?_, ?_⟩
    · split <;>
        simp [handlerSend_resp, List.filter_append, hf1.2.1, hf2.2, List.filter, Event.isInsert]
    · intro hnone
      simp only [hnone, handlerSend_resp, toCInt_zero]
    · intro hsome
      obtain ⟨err, herr⟩ := Option.isSome_iff_exists.mp hsome
      simp only [herr, handlerSend_resp, toCInt_neg_EPERM]
  · intro hret
    simp only [handlerAfterMknod, hret, if_false]
    refine ⟨?_, ?_, ?_⟩
    · simp [handlerSend_resp, List.filter_append, hf1.2.1, hf2.2, List.filter, Event.isInsert]
    · simp only [handlerSend_resp]
    · intro hlo hhi
      simp only [handlerSend_resp]
      exact toCInt_of_range _ hlo hhi

/-- The x86_64 `mknod` of /dev/null for an unprivileged container on shiftfs without a disk
id-mapping, the helper failing with `ENOMEDIUM` (123): `doMknod` is called once with
`permissionsOnly` true, the device is registered, and the response error is 0. -/
theorem Handler_materialise_witness :
    (handlerDecode (sampleWorld (some (sampleContainer false)) ⟨"", "123", true⟩)
      (sampleIovec AUDIT_ARCH_X86_64 133 [4096, 0x21B6, makedev 1 3])).ret = 0 ∧
    (doMknod (sampleWorld (some (sampleContainer false)) ⟨"", "123", true⟩)
      (sampleContainer false)
      (handlerDevice (handlerDecode (sampleWorld (some (sampleContainer false)) ⟨"", "123", true⟩)
        (sampleIovec AUDIT_ARCH_X86_64 133 [4096, 0x21B6, makedev 1 3])))
      42 true).ret = -ENOMEDIUM ∧
    (Handler (sampleWorld (some (sampleContainer false)) ⟨"", "123", true⟩) 3
      (sampleIovec AUDIT_ARCH_X86_64 133 [4096, 0x21B6, makedev 1 3])).events.filter
        Event.isDoMknod = [Event.doMknod 42 true] ∧
    (Handler (sampleWorld (some (sampleContainer false)) ⟨"", "123", true⟩) 3
      (sampleIovec AUDIT_ARCH_X86_64 133 [4096, 0x21B6, makedev 1 3])).resp.error = 0 :=
  have h := Handler_materialise (sampleWorld (some (sampleContainer false)) ⟨"", "123", true⟩) 3
    (sampleIovec AUDIT_ARCH_X86_64 133 [4096, 0x21B6, makedev 1 3]) (sampleContainer false)
    none true _ (by decide) rfl rfl rfl rfl
  ⟨by decide, by decide, h.1, (h.2.2.1 (by decide)).2.1 rfl⟩

/-- Claim C10 fails as stated when the helper fails with a number beyond 32 bits on its
stderr: `doMknod` returns -4294967297, which is not `-ENOMEDIUM`, and the response error is
-1, not that result. -/
theorem Handler_materialise_truncated :
    (doMknod (sampleWorld (some (sampleContainer false)) ⟨"", "4294967297", true⟩)
      (sampleContainer false)
      (handlerDevice (handlerDecode
        (sampleWorld (some (sampleContainer false)) ⟨"", "4294967297", true⟩)
        (sampleIovec AUDIT_ARCH_X86_64 133 [4096, 0x21B6, makedev 1 3])))
      42 true).ret = -4294967297 ∧
    (Handler (sampleWorld (some (sampleContainer false)) ⟨"", "4294967297", true⟩) 3
      (sampleIovec AUDIT_ARCH_X86_64 133 [4096, 0x21B6, makedev 1 3])).resp.error = -1 := by
  decide

/-! ## The policy generator: its three shapes -/

/-- Claim C11. When `raw.seccomp` is set to a non-empty text, `getSeccompProfileContent`
returns exactly that text, with no header and no error, whatever the other keys, the
privilege flag, the notify support and the architecture are. -/
theorem raw_seccomp_verbatim (h : Host) (c : container) (raw : String)
    (hkey : c.ExpandedConfig "raw.seccomp" = some raw) (hne : raw ≠ "") :
    getSeccompProfileContent h c = Except.ok raw := by
  simp [getSeccompProfileContent, configGet, hkey, hne]

/-- A privileged container with a raw policy, every other key set and an architecture
without a name: the raw policy comes back as it is. -/
theorem raw_seccomp_verbatim_witness :
    getSeccompProfileContent sampleHost
      (samplePolicyContainer
        [("raw.seccomp", "whitelist\nread\n"), ("security.syscalls.whitelist", "write\n"),
          ("security.syscalls.blacklist_compat", "true"),
          ("security.syscalls.blacklist", "mount\n")]
        true 7 ⟨false, true⟩) = Except.ok "whitelist\nread\n" :=
  raw_seccomp_verbatim sampleHost _ "whitelist\nread\n" (by decide) (by decide)

/-- Claim C12. When `raw.seccomp` is empty and `security.syscalls.whitelist` is a non-empty
body `W`, `getSeccompProfileContent` returns exactly the header, `whitelist`, `[all]` and
`W`, without error, whatever the other keys and the flags of the container are. -/
theorem whitelist_policy (h : Host) (c : container) (W : String)
    (hraw : configGet c.ExpandedConfig "raw.seccomp" = "")
    (hkey : c.ExpandedConfig "security.syscalls.whitelist" = some W) (hne : W ≠ "") :
    getSeccompProfileContent h c = Except.ok ("2\nwhitelist\n[all]\n" ++ W) := by
  have hW : configGet c.ExpandedConfig "security.syscalls.whitelist" = W := by
    simp [configGet, hkey]
  simp only [getSeccompProfileContent, hraw, hW, hne, ne_eq, not_true_eq_false, if_false,
    not_false_eq_true, if_true]
  rfl

/-- The whitelist "read", "write" of an unprivileged container that also asks for the compat
block on an architecture without a name. -/
theorem whitelist_policy_witness :
    getSeccompProfileContent sampleHost
      (samplePolicyContainer
        [("security.syscalls.whitelist", "read\nwrite\n"),
          ("security.syscalls.blacklist_compat", "true"),
          ("security.syscalls.blacklist", "mount\n")]
        false 7 ⟨false, true⟩) = Except.ok "2\nwhitelist\n[all]\nread\nwrite\n" :=
  (whitelist_policy sampleHost _ "read\nwrite\n" (by decide) (by decide) (by decide)).trans
    (congrArg Except.ok (by decide))

theorem append_if_nonempty (policy blacklist : String) :
    (if blacklist ≠ "" then policy ++ blacklist else policy) = policy ++ blacklist := by
  by_cases hb : blacklist = ""
  · simp [hb]
  · simp [hb]

/-- Claim C13. When `raw.seccomp` and `security.syscalls.whitelist` are both empty (and, if
`blacklist_compat` is truthy, the architecture has the name `arch`),
`getSeccompProfileContent` returns the concatenation, in this order, of the header,
`blacklist`, the default block iff `blacklist_default` is absent or truthy, the notify rules
iff the container is unprivileged, the daemon does not run in a user namespace and notify
is supported, the compat block for `arch` iff `blacklist_compat` is truthy, and the value of
`security.syscalls.blacklist`; nothing else. -/
theorem blacklist_policy (h : Host) (c : container) (arch : String)
    (hraw : configGet c.ExpandedConfig "raw.seccomp" = "")
    (hwl : configGet c.ExpandedConfig "security.syscalls.whitelist" = "")
    (harch : h.IsTrue (configGet c.ExpandedConfig "security.syscalls.blacklist_compat") = true →
      h.ArchitectureName c.Architecture = Except.ok arch) :
    getSeccompProfileContent h c =
      Except.ok
        (SECCOMP_HEADER ++ "blacklist\n" ++
          (if (c.ExpandedConfig "security.syscalls.blacklist_default").isNone ∨
              h.IsTrue (configGet c.ExpandedConfig "security.syscalls.blacklist_default") = true
            then DEFAULT_SECCOMP_POLICY else "") ++
          (if c.IsPrivileged = false ∧ c.DaemonState.RunningInUserNS = false ∧
              c.DaemonState.lxcSupportSeccompNotify = true
            then SECCOMP_NOTIFY_POLICY else "") ++
          (if h.IsTrue (configGet c.ExpandedConfig "security.syscalls.blacklist_compat") = true
            then COMPAT_BLOCKING_POLICY arch else "") ++
          configGet c.ExpandedConfig "security.syscalls.blacklist") := by
  simp only [getSeccompProfileContent, hraw, hwl, ne_eq, not_true_eq_false, if_false,
    append_if_nonempty]
  by_cases hc : h.IsTrue (configGet c.ExpandedConfig "security.syscalls.blacklist_compat") = true
  · rw [if_pos hc, harch hc, if_pos hc]
    simp only [append_if_nonempty]
    cases hp : c.IsPrivileged <;> cases hu : c.DaemonState.RunningInUserNS <;>
      cases hl : c.DaemonState.lxcSupportSeccompNotify <;>
      cases hd1 : (c.ExpandedConfig "security.syscalls.blacklist_default").isNone <;>
      cases hd2 : h.IsTrue (configGet c.ExpandedConfig "security.syscalls.blacklist_default") <;>
      simp
  · rw [if_neg hc, if_neg hc]
    cases hp : c.IsPrivileged <;> cases hu : c.DaemonState.RunningInUserNS <;>
      cases hl : c.DaemonState.lxcSupportSeccompNotify <;>
      cases hd1 : (c.ExpandedConfig "security.syscalls.blacklist_default").isNone <;>
      cases hd2 : h.IsTrue (configGet c.ExpandedConfig "security.syscalls.blacklist_default") <;>
      simp

/-- An unprivileged x86_64 container, not in a user namespace, with notify support and
`blacklist_compat` true: the header, `blacklist`, the default block, the notify rules and the
compat block for x86_64. -/
theorem blacklist_policy_witness :
    getSeccompProfileContent sampleHost
      (samplePolicyContainer [("security.syscalls.blacklist_compat", "true")] false 2
        ⟨false, true⟩) =
      Except.ok
        (SECCOMP_HEADER ++ "blacklist\n" ++ DEFAULT_SECCOMP_POLICY ++ SECCOMP_NOTIFY_POLICY ++
          COMPAT_BLOCKING_POLICY "x86_64") :=
  (blacklist_policy sampleHost
    (samplePolicyContainer [("security.syscalls.blacklist_compat", "true")] false 2
      ⟨false, true⟩) "x86_64" (by decide) (by decide) (fun _ => rfl)).trans
    (congrArg Except.ok (by simp [sampleHost, samplePolicyContainer, configGet, configOf]))

/-- Claim C14. Two containers that agree on the values of the five recognised keys
(and on the presence of `blacklist_default`), on the privilege flag, on the user-namespace
flag, on notify support and on the architecture get the same result from
`getSeccompProfileContent`, the same text or the same error, whatever their names and
their other keys are. -/
theorem getSeccompProfileContent_inputs (h : Host) (c1 c2 : container)
    (hraw : configGet c1.ExpandedConfig "raw.seccomp" = configGet c2.ExpandedConfig "raw.seccomp")
    (hwl : configGet c1.ExpandedConfig "security.syscalls.whitelist" =
      configGet c2.ExpandedConfig "security.syscalls.whitelist")
    (hdef : c1.ExpandedConfig "security.syscalls.blacklist_default" =
      c2.ExpandedConfig "security.syscalls.blacklist_default")
    (hcompat : configGet c1.ExpandedConfig "security.syscalls.blacklist_compat" =
      configGet c2.ExpandedConfig "security.syscalls.blacklist_compat")
    (hbl : configGet c1.ExpandedConfig "security.syscalls.blacklist" =
      configGet c2.ExpandedConfig "security.syscalls.blacklist")
    (hpriv : c1.IsPrivileged = c2.IsPrivileged)
    (hns : c1.DaemonState.RunningInUserNS = c2.DaemonState.RunningInUserNS)
    (hnotify : c1.DaemonState.lxcSupportSeccompNotify = c2.DaemonState.lxcSupportSeccompNotify)
    (harch : c1.Architecture = c2.Architecture) :
    getSeccompProfileContent h c1 = getSeccompProfileContent h c2 := by
  have hdef2 : configGet c1.ExpandedConfig "security.syscalls.blacklist_default" =
      configGet c2.ExpandedConfig "security.syscalls.blacklist_default" := by
    simp only [configGet, hdef]
  simp only [getSeccompProfileContent, hraw, hwl, hdef, hdef2, hcompat, hbl, hpriv, hns, hnotify,
    harch]

/-- Two containers with different names, one of them with a key that the generator does not
read, and the same recognised inputs. -/
theorem getSeccompProfileContent_inputs_witness :
    getSeccompProfileContent sampleHost
      (samplePolicyContainer [("security.syscalls.blacklist", "mount\n")] false 2 ⟨false, true⟩) =
    getSeccompProfileContent sampleHost
      { samplePolicyContainer
          [("security.syscalls.blacklist", "mount\n"), ("limits.memory", "1GB")] false 2
          ⟨false, true⟩ with Name := "c2" } :=
  getSeccompProfileContent_inputs sampleHost _ _ (by decide) (by decide) (by decide) (by decide)
    (by decide) rfl rfl rfl rfl

/-- Claim C15. `ContainerNeedsSeccomp` returns false exactly when none of the keys
`raw.seccomp`, `security.syscalls.whitelist` and `security.syscalls.blacklist` is present,
`security.syscalls.blacklist_compat` is not truthy and `security.syscalls.blacklist_default`
is present with a value that is not truthy; so it returns true for the empty
configuration. -/
theorem ContainerNeedsSeccomp_false_iff (h : Host) (c : container) :
    (ContainerNeedsSeccomp h c = false ↔
      (c.ExpandedConfig "raw.seccomp" = none ∧
        c.ExpandedConfig "security.syscalls.whitelist" = none ∧
        c.ExpandedConfig "security.syscalls.blacklist" = none ∧
        h.IsTrue (configGet c.ExpandedConfig "security.syscalls.blacklist_compat") = false ∧
        ∃ v, c.ExpandedConfig "security.syscalls.blacklist_default" = some v ∧
          h.IsTrue v = false)) ∧
    ((∀ k, c.ExpandedConfig k = none) → ContainerNeedsSeccomp h c = true) := by
  constructor
  · simp only [ContainerNeedsSeccomp, List.any_cons, List.any_nil, Bool.or_false]
    cases hr : c.ExpandedConfig "raw.seccomp" <;>
      cases hw : c.ExpandedConfig "security.syscalls.whitelist" <;>
      cases hb : c.ExpandedConfig "security.syscalls.blacklist" <;>
      cases hd : c.ExpandedConfig "security.syscalls.blacklist_default" <;>
      cases hcompat : h.IsTrue (configGet c.ExpandedConfig "security.syscalls.blacklist_compat") <;>
      simp [configGet, hd]
  · intro hk
    simp [ContainerNeedsSeccomp, hk]

/-- The empty configuration needs a profile; a configuration that only turns the default
block off does not. -/
theorem ContainerNeedsSeccomp_false_iff_witness :
    ContainerNeedsSeccomp sampleHost (samplePolicyContainer [] false 2 ⟨false, true⟩) = true ∧
    ContainerNeedsSeccomp sampleHost
      (samplePolicyContainer [("security.syscalls.blacklist_default", "false")] false 2
        ⟨false, true⟩) = false :=
  ⟨(ContainerNeedsSeccomp_false_iff sampleHost
      (samplePolicyContainer [] false 2 ⟨false, true⟩)).2 (fun _ => rfl),
    (ContainerNeedsSeccomp_false_iff sampleHost
      (samplePolicyContainer [("security.syscalls.blacklist_default", "false")] false 2
        ⟨false, true⟩)).1.mpr
      ⟨by decide, by decide, by decide, by decide, "false", by decide, by decide⟩⟩

/-- Claim C16, what the code does. For the unprivileged x86_64 container with notify support
and `blacklist_compat` true, the policy is the header, `blacklist`, the default block, the
notify rules and the compat block, and what precedes the compat block ends in the closing
bracket of the last notify rule, not in a newline: the line of that rule reads
`mknodat notify [2,24576,SCMP_CMP_MASKED_EQ,61440][x86_64]`. Without the notify rules
what precedes the compat block ends in a newline. -/
theorem compat_scope_glued :
    getSeccompProfileContent sampleHost
      (samplePolicyContainer [("security.syscalls.blacklist_compat", "true")] false 2
        ⟨false, true⟩) =
      Except.ok
        ((SECCOMP_HEADER ++ "blacklist\n" ++ DEFAULT_SECCOMP_POLICY ++ SECCOMP_NOTIFY_POLICY) ++
          COMPAT_BLOCKING_POLICY "x86_64") ∧
    (SECCOMP_HEADER ++ "blacklist\n" ++ DEFAULT_SECCOMP_POLICY ++
      SECCOMP_NOTIFY_POLICY).toList.getLast? = some ']' ∧
    (COMPAT_BLOCKING_POLICY "x86_64").toList.take 8 = "[x86_64]".toList ∧
    (SECCOMP_HEADER ++ "blacklist\n").toList.getLast? = some '\n' ∧
    (SECCOMP_HEADER ++ "blacklist\n" ++ DEFAULT_SECCOMP_POLICY).toList.getLast? = some '\n' ∧
    (splitLines ((SECCOMP_HEADER ++ "blacklist\n" ++ DEFAULT_SECCOMP_POLICY ++
      SECCOMP_NOTIFY_POLICY) ++ COMPAT_BLOCKING_POLICY "x86_64").toList).contains
        "mknodat notify [2,24576,SCMP_CMP_MASKED_EQ,61440][x86_64]".toList = true := by
  refine ⟨?_, by decide, by decide, by decide, by decide, by decide⟩
  simp [getSeccompProfileContent, sampleHost, samplePolicyContainer, configGet, configOf]

/-- Claim C17, what the code does. The mode 0x61B6 is a block device (`mode & S_IFMT` is
`S_IFBLK`, not `S_IFCHR`), and `device_allowed` permits it for the device (1, 3) because
`S_IFBLK` holds the `S_IFCHR` bit; `Handler` then runs the helper with that mode for the
x86_64 `mknod` and answers with error 0. -/
theorem device_allowed_block :
    0x61B6 &&& S_IFMT = S_IFBLK ∧
    S_IFBLK &&& S_IFCHR = S_IFCHR ∧
    device_allowed (makedev 1 3) 0x61B6 = 0 ∧
    (Handler (sampleWorld (some (sampleContainer false)) ⟨"", "", false⟩) 3
      (sampleIovec AUDIT_ARCH_X86_64 133 [4096, 0x61B6, makedev 1 3])).events.filter
        Event.isHelper =
      [Event.RunCommandSplit "/usr/bin/lxd"
        ["forkmknod", "42", "/dev/null", "25014", "259", "/dev/null", "1000", "1000", "1"]] ∧
    (Handler (sampleWorld (some (sampleContainer false)) ⟨"", "", false⟩) 3
      (sampleIovec AUDIT_ARCH_X86_64 133 [4096, 0x61B6, makedev 1 3])).resp.error = 0 := by
  decide

/-- Claim C18. `getSeccompProfileContent` returns an error exactly when `raw.seccomp` and
`security.syscalls.whitelist` are empty, `blacklist_compat` is truthy and the architecture of
the container has no name; in that case `SeccompCreateProfile` returns nil and performs no
file operation, and likewise when `ContainerNeedsSeccomp` is false. -/
theorem SeccompCreateProfile_swallows (h : Host) (c : container) :
    ((∃ err, getSeccompProfileContent h c = Except.error err) ↔
      (configGet c.ExpandedConfig "raw.seccomp" = "" ∧
        configGet c.ExpandedConfig "security.syscalls.whitelist" = "" ∧
        h.IsTrue (configGet c.ExpandedConfig "security.syscalls.blacklist_compat") = true ∧
        ∃ err, h.ArchitectureName c.Architecture = Except.error err)) ∧
    ((∃ err, getSeccompProfileContent h c = Except.error err) →
      (SeccompCreateProfile h c).err = none ∧ (SeccompCreateProfile h c).ops = []) ∧
    (ContainerNeedsSeccomp h c = false →
      (SeccompCreateProfile h c).err = none ∧ (SeccompCreateProfile h c).ops = []) := by
  refine ⟨?_, ?_, ?_⟩
  · simp only [getSeccompProfileContent]
    by_cases hraw : configGet c.ExpandedConfig "raw.seccomp" = ""
    · by_cases hwl : configGet c.ExpandedConfig "security.syscalls.whitelist" = ""
      · by_cases hc :
          h.IsTrue (configGet c.ExpandedConfig "security.syscalls.blacklist_compat") = true
        · cases ha : h.ArchitectureName c.Architecture <;> simp [hraw, hwl, hc]
        · simp [hraw, hwl, hc]
      · simp [hraw, hwl]
    · simp [hraw]
  · rintro ⟨err, herr⟩
    simp only [SeccompCreateProfile]
    split_ifs
    · exact ⟨rfl, rfl⟩
    · rw [herr]
      exact ⟨rfl, rfl⟩
  · intro hneed
    simp [SeccompCreateProfile, hneed]

/-- The compat block asked for on an architecture without a name: the generator fails and
`SeccompCreateProfile` returns nil without touching a file; with a name it writes the
profile. -/
theorem SeccompCreateProfile_swallows_witness :
    getSeccompProfileContent sampleHost
      (samplePolicyContainer [("security.syscalls.blacklist_compat", "true")] false 7
        ⟨false, true⟩) = Except.error "Architecture isn't supported" ∧
    (SeccompCreateProfile sampleHost
      (samplePolicyContainer [("security.syscalls.blacklist_compat", "true")] false 7
        ⟨false, true⟩)).err = none ∧
    (SeccompCreateProfile sampleHost
      (samplePolicyContainer [("security.syscalls.blacklist_compat", "true")] false 7
        ⟨false, true⟩)).ops = [] ∧
    (SeccompCreateProfile sampleHost
      (samplePolicyContainer [("security.syscalls.blacklist_compat", "true")] false 2
        ⟨false, true⟩)).ops.length = 2 :=
  have hg : getSeccompProfileContent sampleHost
      (samplePolicyContainer [("security.syscalls.blacklist_compat", "true")] false 7
        ⟨false, true⟩) = Except.error "Architecture isn't supported" := by
    simp [getSeccompProfileContent, sampleHost, samplePolicyContainer, configGet, configOf]
  have hs := (SeccompCreateProfile_swallows sampleHost
    (samplePolicyContainer [("security.syscalls.blacklist_compat", "true")] false 7
      ⟨false, true⟩)).2.1 ⟨_, hg⟩
  ⟨hg, hs.1, hs.2, by decide⟩

/-- Claim C19, what the code does. The status file of a task with uid 1000 whose name is
`Uid: 0 0` holds the line `Uid:` with the real and the effective uid 1000, and `taskUidGid`
returns the uid 0, read from the name line; with the name `Uid:` it returns an error. With
the name `mknod` it returns the uid and gid 1000. -/
theorem taskUidGid_name_line :
    (splitLines (statusOf "Uid: 0 0").toList).contains "Uid:\t1000\t1000\t1000\t1000".toList
      = true ∧
    (splitLines (statusOf "Uid: 0 0").toList).contains "Gid:\t1000\t1000\t1000\t1000".toList
      = true ∧
    taskUidGid (statusWorld (statusOf "Uid: 0 0")) 42 = some (0, 1000) ∧
    taskUidGid (statusWorld (statusOf "Uid:")) 42 = none ∧
    taskUidGid (statusWorld (statusOf "mknod")) 42 = some (1000, 1000) := by
  decide

theorem doMknodRun_sign (w : World) (dev : Device) (uid gid : Int) (permissionsOnly : Bool)
    (pre : List Event)
    (hpos : ∀ args n, (w.RunCommandSplit w.execPath args).err = true →
      Atoi (w.RunCommandSplit w.execPath args).stderr = some n → 0 < n) :
    (doMknodRun w dev uid gid permissionsOnly pre).ret ≤ 0 ∧
    ((doMknodRun w dev uid gid permissionsOnly pre).ret = 0 →
      (w.RunCommandSplit w.execPath (helperArgs dev uid gid permissionsOnly)).err = false) := by
  have hr := doMknodRun_ret w dev uid gid permissionsOnly pre
  cases herr : (w.RunCommandSplit w.execPath (helperArgs dev uid gid permissionsOnly)).err
  · rw [hr.1 herr]
    simp
  · cases hat : Atoi (w.RunCommandSplit w.execPath (helperArgs dev uid gid permissionsOnly)).stderr
      with
    | none =>
      rw [(hr.2 herr).1 hat]
      simp [EPERM]
    | some n =>
      have hn := hpos _ n herr hat
      by_cases he : n = ENOANO
      · rw [((hr.2 herr).2 n hat).1 he]
        simp [EPERM]
      · have hneg := (((hr.2 herr).2 n hat).2 he).2 (by omega)
        rw [hneg]
        constructor
        · omega
        · intro h0
          omega

/-- Claim C20, as the code has it. When every failing run of the helper that leaves an
integer on its stderr leaves a positive one (the errno of the helper's contract), the value
`doMknod` returns is zero or negative, and it is zero only when the helper was run and
exited successfully, whatever the reads of /proc give. -/
theorem doMknod_sign (w : World) (c : Container) (dev : Device) (requestPID : Int)
    (permissionsOnly : Bool)
    (hpos : ∀ args n, (w.RunCommandSplit w.execPath args).err = true →
      Atoi (w.RunCommandSplit w.execPath args).stderr = some n → 0 < n) :
    (doMknod w c dev requestPID permissionsOnly).ret ≤ 0 ∧
    ((doMknod w c dev requestPID permissionsOnly).ret = 0 →
      ∃ args, (doMknod w c dev requestPID permissionsOnly).events.filter Event.isHelper =
          [Event.RunCommandSplit w.execPath args] ∧
        (w.RunCommandSplit w.execPath args).err = false) := by
  simp only [doMknod]
  split
  · simp [EPERM]
  · split
    · simp [EPERM]
    · split_ifs
      · split
        · simp [EPERM]
        · refine ⟨(doMknodRun_sign w _ _ _ _ _ hpos).1, fun h0 => ⟨_, ?_,
            (doMknodRun_sign w _ _ _ _ _ hpos).2 h0⟩⟩
          rw [doMknodRun_events]
          simp [List.filter, Event.isHelper]
      · refine ⟨(doMknodRun_sign w _ _ _ _ _ hpos).1, fun h0 => ⟨_, ?_,
          (doMknodRun_sign w _ _ _ _ _ hpos).2 h0⟩⟩
        rw [doMknodRun_events]
        simp [List.filter, Event.isHelper]

/-- A helper that fails with 13 on its stderr: the result is negative. -/
theorem doMknod_sign_witness :
    (doMknod (sampleWorld none ⟨"", "13", true⟩) (sampleContainer false)
      [("path", "/dev/null")] 42 false).ret ≤ 0 :=
  (doMknod_sign (sampleWorld none ⟨"", "13", true⟩) (sampleContainer false)
    [("path", "/dev/null")] 42 false
    (fun _ n _ hn => by
      have h13 : (some 13 : Option Int) = some n := (show Atoi "13" = some 13 by decide).symm.trans hn
      simp only [Option.some.injEq] at h13
      omega)).1

/-- Claim C20 fails as stated: a helper that fails with -5 on its stderr makes `doMknod`
return 5, and one that fails with 0 on its stderr makes it return 0. -/
theorem doMknod_sign_positive :
    (sampleWorld none ⟨"", "-5", true⟩).RunCommandSplit "/usr/bin/lxd" [] = ⟨"", "-5", true⟩ ∧
    (doMknod (sampleWorld none ⟨"", "-5", true⟩) (sampleContainer false)
      [("path", "/dev/null")] 42 false).ret = 5 ∧
    (doMknod (sampleWorld none ⟨"", "0", true⟩) (sampleContainer false)
      [("path", "/dev/null")] 42 false).ret = 0 := by
  refine ⟨rfl, by decide, by decide⟩

/-! ## The hostpath -/

theorem splitSlash_ne_nil (l : List Char) : splitSlash l ≠ [] := by
  cases l with
  | nil => simp [splitSlash]
  | cons c cs =>
    unfold splitSlash
    split_ifs
    · simp
    · split <;> simp

theorem splitSlash_append (a b : List Char) :
    splitSlash (a ++ '/' :: b) = splitSlash a ++ splitSlash b := by
  induction a with
  | nil => simp [splitSlash]
  | cons c cs ih =>
    by_cases hc : c = '/'
    · simp [splitSlash, hc, ih]
    · have h1 : splitSlash (c :: (cs ++ '/' :: b)) =
          match splitSlash (cs ++ '/' :: b) with
          | [] => [[c]]
          | l :: ls => (c :: l) :: ls := by
        rw [splitSlash]
        simp [hc]
      have h2 : splitSlash (c :: cs) =
          match splitSlash cs with
          | [] => [[c]]
          | l :: ls => (c :: l) :: ls := by
        rw [splitSlash]
        simp [hc]
      rw [List.cons_append, h1, h2, ih]
      cases hs : splitSlash cs with
      | nil => exact absurd hs (splitSlash_ne_nil cs)
      | cons l ls => simp

theorem cleanLoop_append (A B out : List (List Char)) :
    cleanLoop true (A ++ B) out 0 = cleanLoop true B (cleanLoop true A out 0).reverse 0 := by
  induction A generalizing out with
  | nil => simp [cleanLoop]
  | cons e es ih =>
    rw [List.cons_append, cleanLoop, cleanLoop]
    split_ifs
    · exact ih out
    · exact ih out.tail
    · simp at *
    · exact ih out
    · exact ih (e :: out)

theorem cleanLoop_stays (B extra base : List (List Char))
    (h : staysBelow B extra.length = true) :
    ∃ new, cleanLoop true B (extra ++ base) 0 = base.reverse ++ new := by
  induction B generalizing extra with
  | nil => exact ⟨extra.reverse, by simp [cleanLoop]⟩
  | cons e es ih =>
    by_cases h1 : e = [] ∨ e = ['.']
    · have h2 : staysBelow es extra.length = true := by
        simpa [staysBelow, h1] using h
      rw [cleanLoop, if_pos h1]
      exact ih extra h2
    · by_cases h3 : e = ['.', '.']
      · cases extra with
        | nil => simp [staysBelow, h3] at h
        | cons x xs =>
          have h2 : staysBelow es xs.length = true := by
            simpa [staysBelow, h3] using h
          rw [cleanLoop, if_neg h1, if_pos h3]
          simpa using ih xs h2
      · have h2 : staysBelow es (e :: extra).length = true := by
          simpa [staysBelow, h1, h3] using h
        rw [cleanLoop, if_neg h1, if_neg h3]
        simpa using ih (e :: extra) h2

theorem intercalate_append (sep : List Char) (A B : List (List Char)) (hA : A ≠ [])
    (hB : B ≠ []) :
    List.intercalate sep (A ++ B) = List.intercalate sep A ++ sep ++ List.intercalate sep B := by
  induction A with
  | nil => exact absurd rfl hA
  | cons a as ih =>
    cases as with
    | nil =>
      cases B with
      | nil => exact absurd rfl hB
      | cons b bs => simp [List.intercalate, List.intersperse]
    | cons a2 as2 =>
      have := ih (by simp)
      simp only [List.intercalate, List.intersperse, List.cons_append, List.flatten_cons,
        List.append_assoc, List.append_eq] at this ⊢
      rw [this]

theorem Clean_of_abs (p : String) (cs : List Char) (hp : p.toList = '/' :: cs) :
    (Clean p).toList =
      '/' :: List.intercalate ['/'] (cleanLoop true (splitSlash ('/' :: cs)) [] 0) := by
  unfold Clean
  rw [hp]
  simp [String.toList]

theorem clean_under_root (R rest : String) (habs : IsAbs R = true) (hclean : Clean R = R)
    (hstay : staysBelow (splitSlash rest.toList) 0 = true) :
    Clean (R ++ "/" ++ rest) = R ∨
      (R ++ "/").toList.isPrefixOf (Clean (R ++ "/" ++ rest)).toList = true ∨
      (R = "/" ∧ IsAbs (Clean (R ++ "/" ++ rest)) = true) := by
  obtain ⟨cs, hR⟩ : ∃ cs, R.toList = '/' :: cs := by
    unfold IsAbs at habs
    cases hl : R.toList with
    | nil =>
      rw [hl] at habs
      simp at habs
    | cons c cs =>
      rw [hl] at habs
      simp only [decide_eq_true_eq] at habs
      exact ⟨cs, by rw [habs]⟩
  have hRc := Clean_of_abs R cs hR
  rw [hclean] at hRc
  have hjoin : (R ++ "/" ++ rest).toList = '/' :: (cs ++ '/' :: rest.toList) := by
    simp [String.toList, String.data_append] at hR ⊢
    rw [hR]
    rfl
  have hC := Clean_of_abs (R ++ "/" ++ rest) _ hjoin
  have hsplit : splitSlash ('/' :: (cs ++ '/' :: rest.toList)) =
      splitSlash ('/' :: cs) ++ splitSlash rest.toList := by
    rw [← List.cons_append, splitSlash_append]
  rw [hsplit, cleanLoop_append] at hC
  obtain ⟨new, hnew⟩ := cleanLoop_stays (splitSlash rest.toList) []
    (cleanLoop true (splitSlash ('/' :: cs)) [] 0).reverse hstay
  simp only [List.nil_append, List.reverse_reverse] at hnew
  rw [hnew] at hC
  cases hn : new with
  | nil =>
    left
    rw [hn, List.append_nil] at hC
    apply String.ext
    show (Clean (R ++ "/" ++ rest)).toList = R.toList
    rw [hC, hRc]
  | cons n ns =>
    right
    cases hc : cleanLoop true (splitSlash ('/' :: cs)) [] 0 with
    | nil =>
      right
      rw [hc] at hRc hC
      constructor
      · apply String.ext
        show R.toList = "/".toList
        rw [hRc]
        rfl
      · unfold IsAbs
        rw [hC]
        simp
    | cons r rs =>
      left
      rw [hn, hc, intercalate_append _ _ _ (by simp) (by simp)] at hC
      rw [hc] at hRc
      have hpre : (R ++ "/").toList = R.toList ++ ['/'] := by
        simp [String.toList, String.data_append]
      rw [hpre, hC, hRc, List.isPrefixOf_iff_prefix]
      refine ⟨List.intercalate ['/'] (n :: ns), ?_⟩
      simp

theorem devGet_devSet (dev : Device) (k v : String) : devGet (devSet dev k v) k = v := by
  unfold devGet devSet
  rw [List.find?_append]
  have hnone : List.find? (fun kv => decide (kv.1 = k))
      (List.filter (fun kv => decide (kv.1 ≠ k)) dev) = none := by
    rw [List.find?_eq_none]
    intro x hx
    simp only [List.mem_filter, decide_eq_true_eq] at hx
    simp [hx.2]
  rw [hnone]
  simp

theorem doMknodRun_dev (w : World) (dev : Device) (uid gid : Int) (permissionsOnly : Bool)
    (pre : List Event) : (doMknodRun w dev uid gid permissionsOnly pre).dev = dev := by
  simp only [doMknodRun]
  split_ifs
  · split
    · split_ifs <;> rfl
    · rfl
  · rfl

theorem ne_empty_of_IsAbs (R : String) (habs : IsAbs R = true) : R ≠ "" := by
  intro h
  rw [h] at habs
  simp [IsAbs] at habs

theorem Join_two (R a : String) (habs : IsAbs R = true) : Join [R, a] = Clean (R ++ "/" ++ a) := by
  have hne := ne_empty_of_IsAbs R habs
  simp [Join, List.dropWhile, hne, String.intercalate, String.intercalate.go]

theorem Join_three (R a b : String) (habs : IsAbs R = true) :
    Join [R, a, b] = Clean (R ++ "/" ++ (a ++ "/" ++ b)) := by
  have hne := ne_empty_of_IsAbs R habs
  simp [Join, List.dropWhile, hne, String.intercalate, String.intercalate.go,
    String.append_assoc]

theorem doMknod_hostpath (w : World) (c : Container) (dev : Device) (requestPID : Int)
    (permissionsOnly : Bool) (R cwd : String) (uid gid : Int)
    (hroot : w.Readlink ("/proc/" ++ fmtD requestPID ++ "/root") = some R)
    (hug : taskUidGid w requestPID = some (uid, gid))
    (hcwd : IsAbs (devGet dev "path") = false →
      w.Readlink ("/proc/" ++ fmtD requestPID ++ "/cwd") = some cwd)
    (habs : IsAbs R = true) :
    ∃ pre, doMknod w c dev requestPID permissionsOnly =
      doMknodRun w
        (devSet dev "hostpath" (Clean (R ++ "/" ++ containerPath R cwd (devGet dev "path"))))
        uid gid permissionsOnly pre ∧ ∀ ev ∈ pre, ev.isHelper = false := by
  by_cases hp : IsAbs (devGet dev "path") = true
  · refine ⟨[Event.Readlink ("/proc/" ++ fmtD requestPID ++ "/root"),
      Event.ReadFile ("/proc/" ++ fmtD requestPID ++ "/status")], ?_, ?_⟩
    · simp only [doMknod, hroot, hug, hp, Bool.not_true, Bool.false_eq_true, if_false,
        containerPath, if_true]
      rw [Join_two R _ habs]
    · simp [Event.isHelper]
  · have hp2 : IsAbs (devGet dev "path") = false := by simpa using hp
    refine ⟨[Event.Readlink ("/proc/" ++ fmtD requestPID ++ "/root"),
      Event.ReadFile ("/proc/" ++ fmtD requestPID ++ "/status"),
      Event.Readlink ("/proc/" ++ fmtD requestPID ++ "/cwd")], ?_, ?_⟩
    · simp only [doMknod, hroot, hug, hp2, hcwd hp2, Bool.not_false, if_true, containerPath,
        Bool.false_eq_true, if_false]
      rw [Join_three R _ _ habs]
    · simp [Event.isHelper]

/-- Claim C21, as the code has it. For a clean absolute root `R` of the requester, when the
container path that `doMknod` appends to the root (the device path if it is absolute, else the
cwd without the root as its prefix, a slash and the device path) never steps above its start
with a `..` element, the hostpath that `doMknod` passes to the helper lies inside the root:
it is `R`, or it starts with `R` followed by a separator, or `R` is `/` and it is an absolute
path. -/
theorem hostpath_inside_root (w : World) (c : Container) (dev : Device) (requestPID : Int)
    (permissionsOnly : Bool) (R cwd : String) (uid gid : Int)
    (hroot : w.Readlink ("/proc/" ++ fmtD requestPID ++ "/root") = some R)
    (hug : taskUidGid w requestPID = some (uid, gid))
    (hcwd : IsAbs (devGet dev "path") = false →
      w.Readlink ("/proc/" ++ fmtD requestPID ++ "/cwd") = some cwd)
    (habs : IsAbs R = true) (hclean : Clean R = R)
    (hstay : staysBelow (splitSlash (containerPath R cwd (devGet dev "path")).toList) 0 = true) :
    (doMknod w c dev requestPID permissionsOnly).events.filter Event.isHelper =
      [Event.RunCommandSplit w.execPath
        (helperArgs (doMknod w c dev requestPID permissionsOnly).dev uid gid permissionsOnly)] ∧
    devGet (doMknod w c dev requestPID permissionsOnly).dev "hostpath" =
      Clean (R ++ "/" ++ containerPath R cwd (devGet dev "path")) ∧
    (insideRoot R (devGet (doMknod w c dev requestPID permissionsOnly).dev "hostpath") = true ∨
      (R = "/" ∧
        IsAbs (devGet (doMknod w c dev requestPID permissionsOnly).dev "hostpath") = true)) := by
  obtain ⟨pre, hD, hpre⟩ :=
    doMknod_hostpath w c dev requestPID permissionsOnly R cwd uid gid hroot hug hcwd habs
  rw [hD, doMknodRun_dev, doMknodRun_events, devGet_devSet]
  refine ⟨?_, rfl, ?_⟩
  · rw [List.filter_append]
    have : List.filter Event.isHelper pre = [] := by
      rw [List.filter_eq_nil_iff]
      intro ev hev
      simp [hpre ev hev]
    rw [this]
    simp [List.filter, Event.isHelper]
  · rcases clean_under_root R _ habs hclean hstay with h | h | h
    · left
      simp only [insideRoot, h, decide_True, Bool.true_or]
    · left
      simp only [insideRoot, h, Bool.or_true]
    · right
      exact h

/-- The root /var/lib/lxd/containers/c1/rootfs and the device path /dev/../dev/null, whose
`..` stays below the root: the hostpath is the root followed by /dev/null. -/
theorem hostpath_inside_root_witness :
    Clean "/var/lib/lxd/containers/c1/rootfs" = "/var/lib/lxd/containers/c1/rootfs" ∧
    staysBelow (splitSlash "/dev/../dev/null".toList) 0 = true ∧
    devGet (doMknod (rootedWorld "/var/lib/lxd/containers/c1/rootfs" "/") (sampleContainer false)
      [("path", "/dev/../dev/null")] 42 false).dev "hostpath" =
      "/var/lib/lxd/containers/c1/rootfs/dev/null" ∧
    insideRoot "/var/lib/lxd/containers/c1/rootfs"
      (devGet (doMknod (rootedWorld "/var/lib/lxd/containers/c1/rootfs" "/")
        (sampleContainer false) [("path", "/dev/../dev/null")] 42 false).dev "hostpath") = true :=
  have h := hostpath_inside_root (rootedWorld "/var/lib/lxd/containers/c1/rootfs" "/")
    (sampleContainer false) [("path", "/dev/../dev/null")] 42 false
    "/var/lib/lxd/containers/c1/rootfs" "/" 1000 1000 (by decide) (by decide) (by decide)
    (by decide) (by decide) (by decide)
  ⟨by decide, by decide, h.2.1.trans (by decide),
    h.2.2.elim id (fun hr => absurd hr.1 (by decide))⟩

/-- Claim C21 fails as stated. With the clean absolute root
/var/lib/lxd/containers/c1/rootfs, the absolute device path /../../c2/rootfs/dev/null gives
the hostpath /var/lib/lxd/containers/c2/rootfs/dev/null, and from the cwd /root inside the
root the relative device path ../../x gives /var/lib/lxd/containers/c1/x; neither is the
root or starts with the root and a separator. With the root `/` the device path /dev/null
gives the hostpath /dev/null, which does not start with the root and a further separator. -/
theorem hostpath_leaves_root :
    Clean "/var/lib/lxd/containers/c1/rootfs" = "/var/lib/lxd/containers/c1/rootfs" ∧
    IsAbs "/var/lib/lxd/containers/c1/rootfs" = true ∧
    (doMknod (rootedWorld "/var/lib/lxd/containers/c1/rootfs" "/") (sampleContainer false)
      [("path", "/../../c2/rootfs/dev/null")] 42 false).events.filter Event.isHelper =
      [Event.RunCommandSplit "/usr/bin/lxd"
        ["forkmknod", "", "/../../c2/rootfs/dev/null", "", "",
          "/var/lib/lxd/containers/c2/rootfs/dev/null", "1000", "1000", "0"]] ∧
    insideRoot "/var/lib/lxd/containers/c1/rootfs"
      "/var/lib/lxd/containers/c2/rootfs/dev/null" = false ∧
    devGet (doMknod
      (rootedWorld "/var/lib/lxd/containers/c1/rootfs" "/var/lib/lxd/containers/c1/rootfs/root")
      (sampleContainer false) [("path", "../../x")] 42 false).dev "hostpath" =
      "/var/lib/lxd/containers/c1/x" ∧
    insideRoot "/var/lib/lxd/containers/c1/rootfs" "/var/lib/lxd/containers/c1/x" = false ∧
    devGet (doMknod (rootedWorld "/" "/") (sampleContainer false)
      [("path", "/dev/null")] 42 false).dev "hostpath" = "/dev/null" ∧
    insideRoot "/" "/dev/null" = false := by
  decide

/-! ## Skipping the profile -/

theorem needs_false_facts (h : Host) (c : container) (hneed : ContainerNeedsSeccomp h c = false) :
    c.ExpandedConfig "raw.seccomp" = none ∧
    c.ExpandedConfig "security.syscalls.whitelist" = none ∧
    c.ExpandedConfig "security.syscalls.blacklist" = none ∧
    h.IsTrue (configGet c.ExpandedConfig "security.syscalls.blacklist_compat") = false ∧
    (c.ExpandedConfig "security.syscalls.blacklist_default").isNone = false ∧
    h.IsTrue (configGet c.ExpandedConfig "security.syscalls.blacklist_default") = false := by
  simp only [ContainerNeedsSeccomp, List.any_cons, List.any_nil, Bool.or_false] at hneed
  cases hr : c.ExpandedConfig "raw.seccomp" <;>
    cases hw : c.ExpandedConfig "security.syscalls.whitelist" <;>
    cases hb : c.ExpandedConfig "security.syscalls.blacklist" <;>
    cases hd : (c.ExpandedConfig "security.syscalls.blacklist_default").isNone <;>
    cases hd2 : h.IsTrue (configGet c.ExpandedConfig "security.syscalls.blacklist_default") <;>
    cases hcompat : h.IsTrue (configGet c.ExpandedConfig "security.syscalls.blacklist_compat") <;>
    simp_all

/-- Claim C22, what the code does. For every container for which `ContainerNeedsSeccomp`
returns false, `SeccompCreateProfile` writes nothing, and the policy that
`getSeccompProfileContent` generates is the header and `blacklist` followed by the notify
rules when the container is unprivileged, the daemon does not run in a user namespace and
notify is supported: in that case the rules for `mknod` and `mknodat` are lost. -/
theorem skipped_profile_content (h : Host) (c : container)
    (hneed : ContainerNeedsSeccomp h c = false) :
    (SeccompCreateProfile h c).ops = [] ∧
    getSeccompProfileContent h c =
      Except.ok
        ("2\nblacklist\n" ++
          (if c.IsPrivileged = false ∧ c.DaemonState.RunningInUserNS = false ∧
              c.DaemonState.lxcSupportSeccompNotify = true
            then SECCOMP_NOTIFY_POLICY else "")) := by
  obtain ⟨hr, hw, hb, hcompat, hd1, hd2⟩ := needs_false_facts h c hneed
  constructor
  · simp [SeccompCreateProfile, hneed]
  · have e1 : configGet c.ExpandedConfig "raw.seccomp" = "" := by simp [configGet, hr]
    have e2 : configGet c.ExpandedConfig "security.syscalls.whitelist" = "" := by
      simp [configGet, hw]
    have e3 : configGet c.ExpandedConfig "security.syscalls.blacklist" = "" := by
      simp [configGet, hb]
    have e4 : SECCOMP_HEADER ++ "blacklist\n" = "2\nblacklist\n" := by decide
    simp only [getSeccompProfileContent, e1, e2, e3, e4, hcompat, hd1, hd2, ne_eq,
      not_true_eq_false, if_false, Bool.or_false, Bool.false_eq_true]
    cases hp : c.IsPrivileged <;> cases hu : c.DaemonState.RunningInUserNS <;>
      cases hl : c.DaemonState.lxcSupportSeccompNotify <;> simp

/-- An unprivileged container with notify support whose only key turns the default block
off: no profile is needed, none is written, and the policy that is skipped holds the four
notify rules. -/
theorem skipped_profile_content_witness :
    ContainerNeedsSeccomp sampleHost
      (samplePolicyContainer [("security.syscalls.blacklist_default", "false")] false 2
        ⟨false, true⟩) = false ∧
    (SeccompCreateProfile sampleHost
      (samplePolicyContainer [("security.syscalls.blacklist_default", "false")] false 2
        ⟨false, true⟩)).ops = [] ∧
    getSeccompProfileContent sampleHost
      (samplePolicyContainer [("security.syscalls.blacklist_default", "false")] false 2
        ⟨false, true⟩) = Except.ok ("2\nblacklist\n" ++ SECCOMP_NOTIFY_POLICY) ∧
    ("2\nblacklist\n" ++ SECCOMP_NOTIFY_POLICY == "2\nblacklist\n") = false :=
  have hs := skipped_profile_content sampleHost
    (samplePolicyContainer [("security.syscalls.blacklist_default", "false")] false 2
      ⟨false, true⟩) (by decide)
  ⟨by decide, hs.1,
    hs.2.trans (congrArg Except.ok (by simp [samplePolicyContainer, sampleContainer])),
    by decide⟩

end Seccomp
